import Mathlib

/-!
Verification development for the github-mcp tool server
(src/github_mcp/server.py).  The dispatcher `handle_call_tool` is shallowly
embedded: remote (PyGithub) calls are represented by a `World` of response
functions together with an explicit trace of `RemoteCall`s, Python
exceptions by the `PyExc` sum, and the JSON payload of each returned
content block by the `JVal` type.  Machine floats appear only in two
display-level fields (`percentage`, `avg_commits_per_day`); these are
represented exactly as unreduced fractions (`JVal.jfrac`), i.e. the value
before Python applies `round(x, 2)`.
-/

namespace GithubMcp

/-- JSON-like payload of one returned content block.  `jfrac num den`
stands for the float `num / den` (display rounding abstracted away). -/
inductive JVal where
  | null : JVal
  | jbool (b : Bool) : JVal
  | jint (n : Int) : JVal
  | jfrac (num den : Int) : JVal
  | jstr (s : String) : JVal
  | jarr (xs : List JVal) : JVal
  | jobj (fields : List (String × JVal)) : JVal

/-- First-match lookup in a JSON object field list. -/
def lookupField : List (String × JVal) → String → Option JVal
  | [], _ => none
  | (k2, v) :: rest, k => if k2 = k then some v else lookupField rest k

/-- Field access on a JSON object (none on non-objects). -/
def JVal.getField : JVal → String → Option JVal
  | JVal.jobj fs, k => lookupField fs k
  | _, _ => none

/-- Python `str(x)` for an optional string (absent values print as None). -/
def pyStr : Option String → String
  | none => "None"
  | some s => s

/-- Python falsiness of an optional string: None and the empty string. -/
def pyFalsyStrOpt (o : Option String) : Bool :=
  (o.getD "").isEmpty

/-- Python truthiness of an optional string. -/
def pyTruthyStrOpt (o : Option String) : Bool :=
  !(pyFalsyStrOpt o)

/-- JSON encoding of an optional string (None encodes as null). -/
def jOptStr : Option String → JVal
  | none => JVal.null
  | some s => JVal.jstr s

/-- JSON encoding of an optional integer (None encodes as null). -/
def jOptInt : Option Int → JVal
  | none => JVal.null
  | some n => JVal.jint n

/-- Python slice `xs[:n]` for a possibly negative bound `n`. -/
def pySliceTo (xs : List α) (n : Int) : List α :=
  if 0 ≤ n then xs.take n.toNat else xs.take (xs.length - (-n).toNat)

/-- An optional argument forwarded only when truthy (query params are
included only for truthy values). -/
def truthyOrNone (o : Option String) : Option String :=
  if pyTruthyStrOpt o then o else none

/-- Python slice `xs[-k:]`: the last `k` elements. -/
def pyLastN (xs : List α) (k : Nat) : List α :=
  xs.drop (xs.length - k)

/-- First line of a commit message: `message.split(chr 10)[0]`. -/
def firstLine (s : String) : String :=
  (s.splitOn "\n").headD ""

/-- Python substring test `pat in s`, via splitting (patterns here are
never empty). -/
def strContains (s pat : String) : Bool :=
  decide (2 ≤ (s.splitOn pat).length)

/-- Stable insertion of `x` after every element `y` with `ge y x`. -/
def insertDescBy (ge : α → α → Bool) (x : α) : List α → List α
  | [] => [x]
  | y :: ys => if ge y x then y :: insertDescBy ge x ys else x :: y :: ys

/-- Stable descending sort, matching Python `sorted(key, reverse=True)`. -/
def sortDescBy (ge : α → α → Bool) (xs : List α) : List α :=
  xs.foldl (fun acc x => insertDescBy ge x acc) []

/-- A raised `GithubException`: remote status, `str(e)`, and the raw
`e.data` blob. -/
structure GHErr where
  status : Option Int
  msg : String
  data : List (String × JVal)

/-- A repository object, restricted to the attributes the dispatcher
reads.  Timestamps are their isoformat strings. -/
structure Repo where
  full_name : String
  description : Option String
  stargazers_count : Int
  forks_count : Int
  watchers_count : Int
  language : Option String
  open_issues_count : Int
  default_branch : String
  created_at : String
  updated_at : String
  homepage : Option String
  license : Option String
  html_url : String
  has_issues : Bool
  has_wiki : Bool
  has_downloads : Bool
  has_projects : Bool

/-- An issue object; `pull_request` is the truthiness of the
`issue.pull_request` attribute (the entry is really a PR). -/
structure Issue where
  number : Int
  title : String
  state : String
  created_at : String
  updated_at : String
  closed_at : Option String
  user_login : String
  labels : List String
  assignees : List String
  comments : Int
  pull_request : Bool
  html_url : String

/-- A pull-request object. -/
structure Pull where
  number : Int
  title : String
  state : String
  created_at : String
  updated_at : String
  closed_at : Option String
  user_login : String
  merged : Bool
  draft : Bool
  head_ref : String
  base_ref : String
  html_url : String

/-- An issue / PR comment object. -/
structure Comment where
  id : Int
  body : String
  user_login : String
  created_at : String
  html_url : String

/-- `commit.commit.author` (or committer): name, email, the isoformat
timestamp, and its strftime day bucket. -/
structure CommitAuthor where
  name : String
  email : String
  date : String
  day : String

/-- A commit object as read by the listing operations. -/
structure Commit where
  sha : String
  message : String
  author_login : Option String
  commit_author : Option CommitAuthor
  html_url : String

/-- One changed file of a commit or comparison. -/
structure DiffFile where
  filename : String
  status : String
  additions : Int
  deletions : Int
  changes : Int
  patch : Option String

/-- A commit with stats and files, as read by get_commit_details. -/
structure DetailedCommit where
  sha : String
  message : String
  author_login : Option String
  commit_author : Option CommitAuthor
  committer : Option CommitAuthor
  stats_total : Int
  stats_additions : Int
  stats_deletions : Int
  files : List DiffFile
  parents : List String
  html_url : String

/-- The result of `repo.compare(base, head)`. -/
structure Comparison where
  status : String
  ahead_by : Int
  behind_by : Int
  total_commits : Int
  commits : List Commit
  files : List DiffFile
  html_url : String

/-- One week of a contributor stat (additions, deletions, commits). -/
structure ContributorWeek where
  a : Int
  d : Int
  c : Int

/-- One entry of `get_stats_contributors`. -/
structure ContributorStat where
  author_login : Option String
  total : Int
  weeks : List ContributorWeek

/-- One week of `get_stats_code_frequency`. -/
structure CFWeek where
  week : Int
  additions : Int
  deletions : Int

/-- One week of `get_stats_commit_activity`. -/
structure ActWeek where
  week : Int
  total : Int
  days : List Int

/-- A views/clones traffic dict; `.get` defaults handled at use sites. -/
structure Traffic where
  count : Option Int
  uniques : Option Int

/-- One popular-content path entry. -/
structure PathStat where
  path : String
  title : String
  count : Int
  uniques : Int

/-- One referrer entry. -/
structure RefStat where
  referrer : String
  count : Int
  uniques : Int

/-- A community profile; each file entry is already reduced to the
optional url that `get_file_url` extracts. -/
structure Profile where
  health_percentage : Int
  description : Option String
  documentation : Option String
  code_of_conduct : Option String
  contributing : Option String
  issue_template : Option String
  pull_request_template : Option String
  license_file : Option String
  readme : Option String
  updated_at : Option String

/-- A branch object (`protected` renamed: Lean keyword). -/
structure Branch where
  name : String
  is_protected : Bool
  commit_sha : String
  commit_message : Option String

/-- `protection.required_pull_request_reviews` when present. -/
structure PRReviews where
  require_code_owner_reviews : Bool
  required_approving_review_count : Int
  dismiss_stale_reviews : Bool

/-- A branch protection object; absent / falsy sub-objects are none. -/
structure Protection where
  enforce_admins : Option Bool
  required_pull_request_reviews : Option PRReviews
  required_linear_history : Option Bool
  allow_force_pushes : Option Bool
  allow_deletions : Option Bool

/-- The reference returned by create_git_ref. -/
structure GitRef where
  ref_str : String

/-- The commit returned by repo.merge. -/
structure MergeResult where
  sha : String

/-- A user object as read by get_user_info. -/
structure User where
  login : String
  name : Option String
  bio : Option String
  company : Option String
  location : Option String
  email : Option String
  public_repos : Int
  followers : Int
  following : Int
  created_at : String
  html_url : String

/-- The keyword arguments passed to `issue.edit`. -/
structure EditIssueParams where
  title : Option String := none
  body : Option String := none
  state : Option String := none
  labels : Option (List String) := none
  assignees : Option (List String) := none
  milestone : Option Int := none

/-- The keyword arguments passed to `pr.edit`. -/
structure EditPullParams where
  title : Option String := none
  body : Option String := none
  state : Option String := none
  base : Option String := none

/-- The raw `arguments` mapping of an invocation: `arguments.get(k)` is
field access, absent keys are none.  `until_arg` models the `until` key. -/
structure Args where
  query : Option String := none
  sort : Option String := none
  limit : Option Int := none
  owner : Option String := none
  repo : Option String := none
  path : Option String := none
  branch : Option String := none
  state : Option String := none
  username : Option String := none
  title : Option String := none
  body : Option String := none
  labels : Option (List String) := none
  assignees : Option (List String) := none
  milestone : Option Int := none
  head : Option String := none
  base : Option String := none
  draft : Option Bool := none
  issue_number : Option Int := none
  pr_number : Option Int := none
  days : Option Int := none
  sha : Option String := none
  include_patch : Option Bool := none
  author : Option String := none
  since : Option String := none
  until_arg : Option String := none
  protected_only : Option Bool := none
  branch_name : Option String := none
  from_branch : Option String := none
  commit_message : Option String := none

/-- The `owner/repo` string built by the dispatcher f-strings. -/
def fullName (o r : Option String) : String :=
  pyStr o ++ "/" ++ pyStr r

/-- One call across the Remote Client Adapter boundary, recording the
arguments it was issued with. -/
inductive RemoteCall where
  | searchRepositories (query : Option String) (sort : String)
  | getRepo (full_name : String)
  | getContents (full_name : String) (path : Option String) (ref : String)
  | getIssues (full_name : String) (state : String)
  | getPulls (full_name : String) (state : String)
  | getUser (username : Option String)
  | getIssue (full_name : String) (number : Option Int)
  | getPull (full_name : String) (number : Option Int)
  | createIssue (full_name : String) (title : String) (body : String)
      (labels : Option (List String)) (assignees : Option (List String))
      (milestone : Option Int)
  | createPull (full_name : String) (title : String) (body : String)
      (head : String) (base : String) (draft : Bool)
  | createComment (full_name : String) (number : Option Int) (body : Option String)
  | createPrComment (full_name : String) (number : Option Int) (body : Option String)
  | editIssue (full_name : String) (number : Option Int) (params : EditIssueParams)
  | editPull (full_name : String) (number : Option Int) (params : EditPullParams)
  | getStatsContributors (full_name : String)
  | getStatsCodeFrequency (full_name : String)
  | getStatsCommitActivity (full_name : String)
  | getLanguages (full_name : String)
  | getViewsTraffic (full_name : String)
  | getClonesTraffic (full_name : String)
  | getTopPaths (full_name : String)
  | getTopReferrers (full_name : String)
  | getCommunityProfile (full_name : String)
  | getTopics (full_name : String)
  | getCommits (full_name : String) (sha : Option String)
  | getCommitsFiltered (full_name : String) (author : Option String)
      (since : Option String) (until_p : Option String) (path : Option String)
  | getCommitsSince (full_name : String) (since : String)
  | getCommit (full_name : String) (sha : Option String)
  | compare (full_name : String) (base : Option String) (head : Option String)
  | getBranches (full_name : String)
  | getBranch (full_name : String) (name : String)
  | createGitRef (full_name : String) (ref : String) (sha : String)
  | getGitRef (full_name : String) (ref : String)
  | deleteRef (full_name : String) (ref : String)
  | getProtection (full_name : String) (branch : String)
  | merge (full_name : String) (base : Option String) (head : Option String)
      (commit_message : String)

/-- A Python exception escaping an operation body: ValueError,
GithubException, or any other Exception (type name and message). -/
inductive PyExc where
  | valueError (msg : String)
  | githubExc (e : GHErr)
  | otherExc (ty : String) (msg : String)

/-- The remote system and process environment: one response function per
adapter entry point, plus the presence of GITHUB_TOKEN and the datetime
helpers the dispatcher uses. -/
structure World where
  hasToken : Bool
  search_repositories : Option String → String → Except GHErr (List Repo)
  get_repo : String → Except GHErr Repo
  get_contents : String → Option String → String → Except GHErr String
  get_issues : String → String → Except GHErr (List Issue)
  get_pulls : String → String → Except GHErr (List Pull)
  get_user : Option String → Except GHErr User
  get_issue : String → Option Int → Except GHErr Issue
  get_pull : String → Option Int → Except GHErr Pull
  create_issue : String → String → String → Option (List String) →
    Option (List String) → Option Int → Except GHErr Issue
  create_pull : String → String → String → String → String → Bool →
    Except GHErr Pull
  create_comment : String → Option Int → Option String → Except GHErr Comment
  create_pr_comment : String → Option Int → Option String → Except GHErr Comment
  edit_issue : String → Option Int → EditIssueParams → Except GHErr Unit
  edit_pull : String → Option Int → EditPullParams → Except GHErr Unit
  get_stats_contributors : String → Except GHErr (Option (List ContributorStat))
  get_stats_code_frequency : String → Except GHErr (Option (List CFWeek))
  get_stats_commit_activity : String → Except GHErr (Option (List ActWeek))
  get_languages : String → Except GHErr (List (String × Int))
  get_views_traffic : String → Except GHErr Traffic
  get_clones_traffic : String → Except GHErr Traffic
  get_top_paths : String → Except GHErr (List PathStat)
  get_top_referrers : String → Except GHErr (List RefStat)
  get_community_profile : String → Except GHErr Profile
  get_topics : String → Except GHErr (List String)
  get_commits : String → Option String → Except GHErr (List Commit)
  get_commits_filtered : String → Option String → Option String →
    Option String → Option String → Except GHErr (List Commit)
  get_commits_since : String → String → Except GHErr (List Commit)
  get_commit : String → Option String → Except GHErr DetailedCommit
  compare : String → Option String → Option String → Except GHErr Comparison
  get_branches : String → Except GHErr (List Branch)
  get_branch : String → String → Except GHErr Branch
  create_git_ref : String → String → String → Except GHErr GitRef
  get_git_ref : String → String → Except GHErr GitRef
  delete_ref : String → String → Except GHErr Unit
  get_protection : String → String → Except GHErr Protection
  merge : String → Option String → Option String → String → Except GHErr MergeResult
  nowMinusDays : Int → String
  fromtimestamp : Int → String
  fromisoformat : String → Except String String

/-- The outcome of one operation body: either the returned content blocks
or an escaping exception, together with the adapter calls performed. -/
abbrev OpResult := Except PyExc (List JVal) × List RemoteCall

/-- Perform one adapter call: record it, propagate a GithubException,
otherwise continue with the result. -/
def ghTry (tr : List RemoteCall) (rc : RemoteCall) (res : Except GHErr α)
    (k : α → List RemoteCall → OpResult) : OpResult :=
  match res with
  | Except.ok a => k a (tr ++ [rc])
  | Except.error e => (Except.error (PyExc.githubExc e), tr ++ [rc])

/-- The ValueError message of `get_github_client` when GITHUB_TOKEN is
absent. -/
def tokenErrorMessage : String :=
  "GITHUB_TOKEN environment variable is required. Please set it in your .env file or environment variables. Get a token from: https://github.com/settings/tokens"

/-- The envelope of the top-level `except ValueError` handler. -/
def configurationErrorEnvelope (m : String) : JVal :=
  JVal.jobj [("error", JVal.jstr "Configuration Error"),
    ("message", JVal.jstr m),
    ("suggestions", JVal.jarr [JVal.jstr "Set GITHUB_TOKEN in your .env file",
      JVal.jstr "Get a token from: https://github.com/settings/tokens",
      JVal.jstr "Ensure the token has the \x27repo\x27 or \x27public_repo\x27 scope"])]

/-- The envelope of the top-level `except GithubException` handler. -/
def githubApiErrorEnvelope (e : GHErr) : JVal :=
  JVal.jobj [("error", JVal.jstr "GitHub API Error"),
    ("message", JVal.jstr e.msg),
    ("status", jOptInt e.status)]

/-- The envelope of the top-level `except Exception` handler. -/
def unexpectedErrorEnvelope (ty m : String) : JVal :=
  JVal.jobj [("error", JVal.jstr "Unexpected Error"),
    ("message", JVal.jstr m),
    ("type", JVal.jstr ty)]

/-- One search result row of search_repositories. -/
def searchRepoRow (r : Repo) : JVal :=
  JVal.jobj [("name", JVal.jstr r.full_name),
    ("description", jOptStr r.description),
    ("stars", JVal.jint r.stargazers_count),
    ("forks", JVal.jint r.forks_count),
    ("language", jOptStr r.language),
    ("url", JVal.jstr r.html_url),
    ("updated_at", JVal.jstr r.updated_at)]

/-- search_repositories: one search call, slice to `min(limit, 100)`. -/
def op_searchRepositories (w : World) (a : Args) : OpResult :=
  let q := a.query
  let srt := a.sort.getD "stars"
  let lim : Int := min (a.limit.getD 10) 100
  ghTry [] (RemoteCall.searchRepositories q srt) (w.search_repositories q srt) fun repos tr =>
    (Except.ok [JVal.jarr ((pySliceTo repos lim).map searchRepoRow)], tr)

/-- get_repository_info: get_repo, then get_topics while building the
info dict. -/
def op_getRepositoryInfo (w : World) (a : Args) : OpResult :=
  let fn := fullName a.owner a.repo
  ghTry [] (RemoteCall.getRepo fn) (w.get_repo fn) fun repo tr =>
  ghTry tr (RemoteCall.getTopics fn) (w.get_topics fn) fun topics tr =>
    (Except.ok [JVal.jobj [("name", JVal.jstr repo.full_name),
      ("description", jOptStr repo.description),
      ("stars", JVal.jint repo.stargazers_count),
      ("forks", JVal.jint repo.forks_count),
      ("watchers", JVal.jint repo.watchers_count),
      ("language", jOptStr repo.language),
      ("open_issues", JVal.jint repo.open_issues_count),
      ("default_branch", JVal.jstr repo.default_branch),
      ("created_at", JVal.jstr repo.created_at),
      ("updated_at", JVal.jstr repo.updated_at),
      ("homepage", jOptStr repo.homepage),
      ("topics", JVal.jarr (topics.map JVal.jstr)),
      ("license", jOptStr repo.license),
      ("url", JVal.jstr repo.html_url)]], tr)

/-- get_file_contents: try the requested branch (default main); on a
GithubException retry once against master; the raw file text is the
content block. -/
def op_getFileContents (w : World) (a : Args) : OpResult :=
  let fn := fullName a.owner a.repo
  let p := a.path
  let br := a.branch.getD "main"
  ghTry [] (RemoteCall.getRepo fn) (w.get_repo fn) fun _repo tr =>
    match w.get_contents fn p br with
    | Except.ok content =>
        (Except.ok [JVal.jstr content], tr ++ [RemoteCall.getContents fn p br])
    | Except.error _ =>
        match w.get_contents fn p "master" with
        | Except.ok content =>
            (Except.ok [JVal.jstr content],
             tr ++ [RemoteCall.getContents fn p br, RemoteCall.getContents fn p "master"])
        | Except.error e2 =>
            (Except.error (PyExc.githubExc e2),
             tr ++ [RemoteCall.getContents fn p br, RemoteCall.getContents fn p "master"])

/-- One row of list_issues. -/
def issueRow (i : Issue) : JVal :=
  JVal.jobj [("number", JVal.jint i.number),
    ("title", JVal.jstr i.title),
    ("state", JVal.jstr i.state),
    ("created_at", JVal.jstr i.created_at),
    ("updated_at", JVal.jstr i.updated_at),
    ("user", JVal.jstr i.user_login),
    ("labels", JVal.jarr (i.labels.map JVal.jstr)),
    ("comments", JVal.jint i.comments),
    ("url", JVal.jstr i.html_url)]

/-- list_issues: slice the remote collection to the clamped limit FIRST,
then drop entries that are pull requests. -/
def op_listIssues (w : World) (a : Args) : OpResult :=
  let fn := fullName a.owner a.repo
  let st := a.state.getD "open"
  let lim : Int := min (a.limit.getD 10) 100
  ghTry [] (RemoteCall.getRepo fn) (w.get_repo fn) fun _repo tr =>
  ghTry tr (RemoteCall.getIssues fn st) (w.get_issues fn st) fun issues tr =>
    (Except.ok [JVal.jarr
      (((pySliceTo issues lim).filter (fun i => !i.pull_request)).map issueRow)], tr)

/-- get_user_info. -/
def op_getUserInfo (w : World) (a : Args) : OpResult :=
  ghTry [] (RemoteCall.getUser a.username) (w.get_user a.username) fun u tr =>
    (Except.ok [JVal.jobj [("login", JVal.jstr u.login),
      ("name", jOptStr u.name),
      ("bio", jOptStr u.bio),
      ("company", jOptStr u.company),
      ("location", jOptStr u.location),
      ("email", jOptStr u.email),
      ("public_repos", JVal.jint u.public_repos),
      ("followers", JVal.jint u.followers),
      ("following", JVal.jint u.following),
      ("created_at", JVal.jstr u.created_at),
      ("url", JVal.jstr u.html_url)]], tr)

/-- One row of list_pull_requests. -/
def pullRow (p : Pull) : JVal :=
  JVal.jobj [("number", JVal.jint p.number),
    ("title", JVal.jstr p.title),
    ("state", JVal.jstr p.state),
    ("created_at", JVal.jstr p.created_at),
    ("updated_at", JVal.jstr p.updated_at),
    ("user", JVal.jstr p.user_login),
    ("merged", JVal.jbool p.merged),
    ("url", JVal.jstr p.html_url)]

/-- list_pull_requests. -/
def op_listPullRequests (w : World) (a : Args) : OpResult :=
  let fn := fullName a.owner a.repo
  let st := a.state.getD "open"
  let lim : Int := min (a.limit.getD 10) 100
  ghTry [] (RemoteCall.getRepo fn) (w.get_repo fn) fun _repo tr =>
  ghTry tr (RemoteCall.getPulls fn st) (w.get_pulls fn st) fun prs tr =>
    (Except.ok [JVal.jarr ((pySliceTo prs lim).map pullRow)], tr)

/-- The local validation envelope for a falsy or placeholder owner. -/
def invalidOwnerEnvelope : JVal :=
  JVal.jobj [("error", JVal.jstr "Invalid owner"),
    ("message", JVal.jstr "Please provide a valid repository owner (username or organization)."),
    ("hint", JVal.jstr "Replace \x27YOUR_USERNAME\x27 with your actual GitHub username or organization name.")]

/-- The local validation envelope for a falsy or placeholder repo. -/
def invalidRepoEnvelope : JVal :=
  JVal.jobj [("error", JVal.jstr "Invalid repository name"),
    ("message", JVal.jstr "Please provide a valid repository name."),
    ("hint", JVal.jstr "Replace \x27YOUR_REPO\x27 with your actual repository name.")]

/-- `str(e) or default` for an empty exception text. -/
def orDefaultMsg (m : String) : String :=
  if m = "" then "Unknown GitHub API error" else m

/-- The per-status error envelope of the create_issue except block. -/
def createIssueErrorEnvelope (fn : String) (e : GHErr) : JVal :=
  let error_msg := orDefaultMsg e.msg
  if e.status = some 404 then
    JVal.jobj [("error", JVal.jstr "Repository not found"),
      ("message", JVal.jstr ("Repository \x27" ++ fn ++ "\x27 not found or you don\x27t have access.")),
      ("details", JVal.jstr error_msg),
      ("suggestions", JVal.jarr [JVal.jstr ("Check that the repository exists: https://github.com/" ++ fn),
        JVal.jstr "Verify you have write access to the repository",
        JVal.jstr "Ensure your GitHub token has the \x27repo\x27 scope",
        JVal.jstr "Check that owner and repo names are spelled correctly"]),
      ("status", jOptInt e.status)]
  else if e.status = some 403 then
    JVal.jobj [("error", JVal.jstr "Permission denied"),
      ("message", JVal.jstr "You don\x27t have permission to create issues in this repository."),
      ("details", JVal.jstr error_msg),
      ("suggestions", JVal.jarr [JVal.jstr "Verify you have write access to the repository",
        JVal.jstr "Check that your GitHub token has the \x27repo\x27 scope",
        JVal.jstr "For private repos, ensure your token has access",
        JVal.jstr "Verify the token hasn\x27t expired or been revoked"]),
      ("status", jOptInt e.status)]
  else if e.status = some 422 then
    JVal.jobj [("error", JVal.jstr "Validation error"),
      ("message", JVal.jstr "The request is invalid."),
      ("details", JVal.jstr error_msg),
      ("suggestions", JVal.jarr [JVal.jstr "Check that all labels exist in the repository",
        JVal.jstr "Verify assignee usernames are correct",
        JVal.jstr "Ensure milestone number is valid",
        JVal.jstr "Make sure the repository has issues enabled"]),
      ("status", jOptInt e.status)]
  else
    JVal.jobj [("error", JVal.jstr "GitHub API error"),
      ("message", JVal.jstr error_msg),
      ("status", jOptInt e.status),
      ("details", if e.data.isEmpty then JVal.null else JVal.jobj e.data),
      ("suggestions", JVal.jarr [JVal.jstr "Check your GitHub token is valid and has correct permissions",
        JVal.jstr "Verify the repository exists and you have access",
        JVal.jstr "Check GitHub API status: https://www.githubstatus.com/",
        JVal.jstr ("Review the error details: " ++ error_msg)])]

/-- create_issue: local owner/repo/title validation before any adapter
call; then get_repo, the has_issues guard, and the create call, with the
per-status except handling of this operation. -/
def op_createIssue (w : World) (a : Args) : OpResult :=
  if pyFalsyStrOpt a.owner || a.owner == some "YOUR_USERNAME" then
    (Except.ok [invalidOwnerEnvelope], [])
  else if pyFalsyStrOpt a.repo || a.repo == some "YOUR_REPO" then
    (Except.ok [invalidRepoEnvelope], [])
  else if pyFalsyStrOpt a.title then
    (Except.ok [JVal.jobj [("error", JVal.jstr "Missing title"),
      ("message", JVal.jstr "Issue title is required.")]], [])
  else
    let fn := fullName a.owner a.repo
    let title := pyStr a.title
    let body := a.body.getD ""
    let labels := a.labels.getD []
    let assignees := a.assignees.getD []
    let labelsArg := if labels.isEmpty then none else some labels
    let assigneesArg := if assignees.isEmpty then none else some assignees
    match w.get_repo fn with
    | Except.error e => (Except.ok [createIssueErrorEnvelope fn e], [RemoteCall.getRepo fn])
    | Except.ok repo =>
        if repo.has_issues = false then
          (Except.ok [JVal.jobj [("error", JVal.jstr "Issues disabled"),
            ("message", JVal.jstr ("Issues are disabled for repository \x27" ++ fn ++ "\x27.")),
            ("suggestions", JVal.jarr [JVal.jstr "Enable issues in repository settings: Settings → General → Features → Issues",
              JVal.jstr ("Go to: https://github.com/" ++ fn ++ "/settings")])]],
           [RemoteCall.getRepo fn])
        else
          let rc := RemoteCall.createIssue fn title body labelsArg assigneesArg a.milestone
          match w.create_issue fn title body labelsArg assigneesArg a.milestone with
          | Except.error e =>
              (Except.ok [createIssueErrorEnvelope fn e], [RemoteCall.getRepo fn, rc])
          | Except.ok issue =>
              (Except.ok [JVal.jobj [("number", JVal.jint issue.number),
                ("title", JVal.jstr issue.title),
                ("state", JVal.jstr issue.state),
                ("url", JVal.jstr issue.html_url),
                ("created_at", JVal.jstr issue.created_at),
                ("labels", JVal.jarr (issue.labels.map JVal.jstr)),
                ("assignees", JVal.jarr (issue.assignees.map JVal.jstr))]],
               [RemoteCall.getRepo fn, rc])

/-- The per-status error envelope of the create_pull_request except
block. -/
def createPullErrorEnvelope (fn head base : String) (e : GHErr) : JVal :=
  let error_msg := e.msg
  if e.status = some 404 then
    JVal.jobj [("error", JVal.jstr "Repository or branch not found"),
      ("message", JVal.jstr ("Repository \x27" ++ fn ++ "\x27 or branch \x27" ++ head ++ "\x27 not found.")),
      ("suggestions", JVal.jarr [JVal.jstr ("Check that the repository exists: https://github.com/" ++ fn),
        JVal.jstr ("Verify the branch \x27" ++ head ++ "\x27 exists in the repository"),
        JVal.jstr "For forks, use format: \x27fork-owner:branch-name\x27",
        JVal.jstr "Ensure you have write access to the repository"])]
  else if e.status = some 403 then
    JVal.jobj [("error", JVal.jstr "Permission denied"),
      ("message", JVal.jstr "You don\x27t have permission to create pull requests in this repository."),
      ("suggestions", JVal.jarr [JVal.jstr "Verify you have write access to the repository",
        JVal.jstr "Check that your GitHub token has the \x27repo\x27 scope",
        JVal.jstr "For private repos, ensure your token has access"])]
  else if e.status = some 422 then
    if strContains error_msg "No commits between" || strContains error_msg.toLower "head" then
      JVal.jobj [("error", JVal.jstr "Invalid branch configuration"),
        ("message", JVal.jstr "Cannot create pull request with these branches."),
        ("details", JVal.jstr error_msg),
        ("suggestions", JVal.jarr [JVal.jstr ("Ensure branch \x27" ++ head ++ "\x27 has commits that differ from \x27" ++ base ++ "\x27"),
          JVal.jstr ("Check that branch \x27" ++ head ++ "\x27 exists"),
          JVal.jstr ("Verify branch \x27" ++ base ++ "\x27 exists"),
          JVal.jstr "Make sure you\x27ve pushed commits to the head branch"])]
    else
      JVal.jobj [("error", JVal.jstr "Validation error"),
        ("message", JVal.jstr "The request is invalid."),
        ("details", JVal.jstr error_msg),
        ("suggestions", JVal.jarr [JVal.jstr "Check that both branches exist",
          JVal.jstr "Ensure there are differences between branches",
          JVal.jstr "Verify branch names are correct"])]
  else
    JVal.jobj [("error", JVal.jstr "GitHub API error"),
      ("message", JVal.jstr error_msg),
      ("status", jOptInt e.status)]

/-- create_pull_request: local owner/repo/title/head validation, then
get_repo and the create call with this operation's except handling. -/
def op_createPullRequest (w : World) (a : Args) : OpResult :=
  if pyFalsyStrOpt a.owner || a.owner == some "YOUR_USERNAME" then
    (Except.ok [invalidOwnerEnvelope], [])
  else if pyFalsyStrOpt a.repo || a.repo == some "YOUR_REPO" then
    (Except.ok [invalidRepoEnvelope], [])
  else if pyFalsyStrOpt a.title then
    (Except.ok [JVal.jobj [("error", JVal.jstr "Missing title"),
      ("message", JVal.jstr "Pull request title is required.")]], [])
  else if pyFalsyStrOpt a.head then
    (Except.ok [JVal.jobj [("error", JVal.jstr "Missing head branch"),
      ("message", JVal.jstr "Head branch (branch with changes) is required."),
      ("hint", JVal.jstr "Specify the branch containing your changes, e.g., \x27feature-branch\x27 or \x27fork-owner:branch-name\x27")]], [])
  else
    let fn := fullName a.owner a.repo
    let title := pyStr a.title
    let body := a.body.getD ""
    let head := pyStr a.head
    let base := a.base.getD "main"
    let draft := a.draft.getD false
    match w.get_repo fn with
    | Except.error e =>
        (Except.ok [createPullErrorEnvelope fn head base e], [RemoteCall.getRepo fn])
    | Except.ok _repo =>
        let rc := RemoteCall.createPull fn title body head base draft
        match w.create_pull fn title body head base draft with
        | Except.error e =>
            (Except.ok [createPullErrorEnvelope fn head base e], [RemoteCall.getRepo fn, rc])
        | Except.ok pr =>
            (Except.ok [JVal.jobj [("number", JVal.jint pr.number),
              ("title", JVal.jstr pr.title),
              ("state", JVal.jstr pr.state),
              ("url", JVal.jstr pr.html_url),
              ("created_at", JVal.jstr pr.created_at),
              ("head", JVal.jstr pr.head_ref),
              ("base", JVal.jstr pr.base_ref),
              ("draft", JVal.jbool pr.draft),
              ("merged", JVal.jbool pr.merged)]],
             [RemoteCall.getRepo fn, rc])

/-- The comment row shared by add_issue_comment and add_pr_comment. -/
def commentRow (c : Comment) : JVal :=
  JVal.jobj [("id", JVal.jint c.id),
    ("body", JVal.jstr c.body),
    ("user", JVal.jstr c.user_login),
    ("created_at", JVal.jstr c.created_at),
    ("url", JVal.jstr c.html_url)]

/-- add_issue_comment: get_repo, get_issue, create_comment; no local
validation of any argument. -/
def op_addIssueComment (w : World) (a : Args) : OpResult :=
  let fn := fullName a.owner a.repo
  ghTry [] (RemoteCall.getRepo fn) (w.get_repo fn) fun _repo tr =>
  ghTry tr (RemoteCall.getIssue fn a.issue_number) (w.get_issue fn a.issue_number) fun _issue tr =>
  ghTry tr (RemoteCall.createComment fn a.issue_number a.body)
    (w.create_comment fn a.issue_number a.body) fun c tr =>
    (Except.ok [commentRow c], tr)

/-- add_pr_comment: get_repo, get_pull, create_issue_comment. -/
def op_addPrComment (w : World) (a : Args) : OpResult :=
  let fn := fullName a.owner a.repo
  ghTry [] (RemoteCall.getRepo fn) (w.get_repo fn) fun _repo tr =>
  ghTry tr (RemoteCall.getPull fn a.pr_number) (w.get_pull fn a.pr_number) fun _pr tr =>
  ghTry tr (RemoteCall.createPrComment fn a.pr_number a.body)
    (w.create_pr_comment fn a.pr_number a.body) fun c tr =>
    (Except.ok [commentRow c], tr)

/-- update_issue: get_repo, get_issue, edit with the supplied subset of
fields, then a refreshing get_issue. -/
def op_updateIssue (w : World) (a : Args) : OpResult :=
  let fn := fullName a.owner a.repo
  let params : EditIssueParams :=
    { title := a.title, body := a.body, state := a.state,
      labels := a.labels, assignees := a.assignees, milestone := a.milestone }
  ghTry [] (RemoteCall.getRepo fn) (w.get_repo fn) fun _repo tr =>
  ghTry tr (RemoteCall.getIssue fn a.issue_number) (w.get_issue fn a.issue_number) fun _issue tr =>
  ghTry tr (RemoteCall.editIssue fn a.issue_number params)
    (w.edit_issue fn a.issue_number params) fun _ tr =>
  ghTry tr (RemoteCall.getIssue fn a.issue_number) (w.get_issue fn a.issue_number) fun issue tr =>
    (Except.ok [JVal.jobj [("number", JVal.jint issue.number),
      ("title", JVal.jstr issue.title),
      ("state", JVal.jstr issue.state),
      ("url", JVal.jstr issue.html_url),
      ("updated_at", JVal.jstr issue.updated_at),
      ("labels", JVal.jarr (issue.labels.map JVal.jstr)),
      ("assignees", JVal.jarr (issue.assignees.map JVal.jstr))]], tr)

/-- update_pull_request: get_repo, get_pull, edit, refreshing get_pull. -/
def op_updatePullRequest (w : World) (a : Args) : OpResult :=
  let fn := fullName a.owner a.repo
  let params : EditPullParams :=
    { title := a.title, body := a.body, state := a.state, base := a.base }
  ghTry [] (RemoteCall.getRepo fn) (w.get_repo fn) fun _repo tr =>
  ghTry tr (RemoteCall.getPull fn a.pr_number) (w.get_pull fn a.pr_number) fun _pr tr =>
  ghTry tr (RemoteCall.editPull fn a.pr_number params)
    (w.edit_pull fn a.pr_number params) fun _ tr =>
  ghTry tr (RemoteCall.getPull fn a.pr_number) (w.get_pull fn a.pr_number) fun pr tr =>
    (Except.ok [JVal.jobj [("number", JVal.jint pr.number),
      ("title", JVal.jstr pr.title),
      ("state", JVal.jstr pr.state),
      ("url", JVal.jstr pr.html_url),
      ("updated_at", JVal.jstr pr.updated_at),
      ("head", JVal.jstr pr.head_ref),
      ("base", JVal.jstr pr.base_ref),
      ("merged", JVal.jbool pr.merged)]], tr)

/-- close_issue: edit(state=closed); the result is built from the stale
issue object with the state hardcoded to closed. -/
def op_closeIssue (w : World) (a : Args) : OpResult :=
  let fn := fullName a.owner a.repo
  ghTry [] (RemoteCall.getRepo fn) (w.get_repo fn) fun _repo tr =>
  ghTry tr (RemoteCall.getIssue fn a.issue_number) (w.get_issue fn a.issue_number) fun issue tr =>
  ghTry tr (RemoteCall.editIssue fn a.issue_number { state := some "closed" })
    (w.edit_issue fn a.issue_number { state := some "closed" }) fun _ tr =>
    (Except.ok [JVal.jobj [("number", JVal.jint issue.number),
      ("title", JVal.jstr issue.title),
      ("state", JVal.jstr "closed"),
      ("url", JVal.jstr issue.html_url),
      ("closed_at", jOptStr issue.closed_at)]], tr)

/-- reopen_issue: edit(state=open). -/
def op_reopenIssue (w : World) (a : Args) : OpResult :=
  let fn := fullName a.owner a.repo
  ghTry [] (RemoteCall.getRepo fn) (w.get_repo fn) fun _repo tr =>
  ghTry tr (RemoteCall.getIssue fn a.issue_number) (w.get_issue fn a.issue_number) fun issue tr =>
  ghTry tr (RemoteCall.editIssue fn a.issue_number { state := some "open" })
    (w.edit_issue fn a.issue_number { state := some "open" }) fun _ tr =>
    (Except.ok [JVal.jobj [("number", JVal.jint issue.number),
      ("title", JVal.jstr issue.title),
      ("state", JVal.jstr "open"),
      ("url", JVal.jstr issue.html_url)]], tr)

/-- close_pull_request: edit(state=closed) on the PR. -/
def op_closePullRequest (w : World) (a : Args) : OpResult :=
  let fn := fullName a.owner a.repo
  ghTry [] (RemoteCall.getRepo fn) (w.get_repo fn) fun _repo tr =>
  ghTry tr (RemoteCall.getPull fn a.pr_number) (w.get_pull fn a.pr_number) fun pr tr =>
  ghTry tr (RemoteCall.editPull fn a.pr_number { state := some "closed" })
    (w.edit_pull fn a.pr_number { state := some "closed" }) fun _ tr =>
    (Except.ok [JVal.jobj [("number", JVal.jint pr.number),
      ("title", JVal.jstr pr.title),
      ("state", JVal.jstr "closed"),
      ("url", JVal.jstr pr.html_url),
      ("closed_at", jOptStr pr.closed_at)]], tr)

/-- reopen_pull_request: edit(state=open) on the PR. -/
def op_reopenPullRequest (w : World) (a : Args) : OpResult :=
  let fn := fullName a.owner a.repo
  ghTry [] (RemoteCall.getRepo fn) (w.get_repo fn) fun _repo tr =>
  ghTry tr (RemoteCall.getPull fn a.pr_number) (w.get_pull fn a.pr_number) fun pr tr =>
  ghTry tr (RemoteCall.editPull fn a.pr_number { state := some "open" })
    (w.edit_pull fn a.pr_number { state := some "open" }) fun _ tr =>
    (Except.ok [JVal.jobj [("number", JVal.jint pr.number),
      ("title", JVal.jstr pr.title),
      ("state", JVal.jstr "open"),
      ("url", JVal.jstr pr.html_url)]], tr)

/-- The shared pending envelope of the asynchronous statistics
endpoints. -/
def pendingEnvelope : JVal :=
  JVal.jobj [("message", JVal.jstr "Statistics are being calculated by GitHub. Please try again in a few seconds."),
    ("status", JVal.jstr "pending")]

/-- One contributor row of get_contributor_stats. -/
def contributorRow (c : ContributorStat) : JVal :=
  JVal.jobj [("author", JVal.jstr (c.author_login.getD "Unknown")),
    ("total_commits", JVal.jint c.total),
    ("total_additions", JVal.jint ((c.weeks.map (·.a)).sum)),
    ("total_deletions", JVal.jint ((c.weeks.map (·.d)).sum)),
    ("weeks_active", JVal.jint (c.weeks.filter (fun wk => decide (0 < wk.c))).length)]

/-- get_contributor_stats: pending when the remote aggregation is still
running, otherwise sort by total descending and slice to the clamped
limit. -/
def op_getContributorStats (w : World) (a : Args) : OpResult :=
  let fn := fullName a.owner a.repo
  let lim : Int := min (a.limit.getD 10) 100
  ghTry [] (RemoteCall.getRepo fn) (w.get_repo fn) fun _repo tr =>
  ghTry tr (RemoteCall.getStatsContributors fn) (w.get_stats_contributors fn) fun stats tr =>
    match stats with
    | none => (Except.ok [pendingEnvelope], tr)
    | some stats =>
        let sorted_stats := pySliceTo
          (sortDescBy (fun y x => decide (x.total ≤ y.total)) stats) lim
        let results := sorted_stats.map contributorRow
        (Except.ok [JVal.jobj [("repository", JVal.jstr fn),
          ("total_contributors", JVal.jint stats.length),
          ("showing", JVal.jint results.length),
          ("contributors", JVal.jarr results)]], tr)

/-- get_code_frequency: pending when still aggregating; last 12 weeks
detailed, totals over the whole series. -/
def op_getCodeFrequency (w : World) (a : Args) : OpResult :=
  let fn := fullName a.owner a.repo
  ghTry [] (RemoteCall.getRepo fn) (w.get_repo fn) fun _repo tr =>
  ghTry tr (RemoteCall.getStatsCodeFrequency fn) (w.get_stats_code_frequency fn) fun stats tr =>
    match stats with
    | none => (Except.ok [pendingEnvelope], tr)
    | some stats =>
        let results := (pyLastN stats 12).map (fun wk =>
          JVal.jobj [("week_start", JVal.jstr (w.fromtimestamp wk.week)),
            ("additions", JVal.jint wk.additions),
            ("deletions", JVal.jint wk.deletions)])
        (Except.ok [JVal.jobj [("repository", JVal.jstr fn),
          ("total_additions", JVal.jint ((stats.map (·.additions)).sum)),
          ("total_deletions", JVal.jint ((stats.map (·.deletions)).sum)),
          ("weeks_tracked", JVal.jint stats.length),
          ("last_12_weeks", JVal.jarr results)]], tr)

/-- get_commit_activity: pending when still aggregating; last 12 weeks
detailed, yearly total over the whole series. -/
def op_getCommitActivity (w : World) (a : Args) : OpResult :=
  let fn := fullName a.owner a.repo
  ghTry [] (RemoteCall.getRepo fn) (w.get_repo fn) fun _repo tr =>
  ghTry tr (RemoteCall.getStatsCommitActivity fn) (w.get_stats_commit_activity fn) fun stats tr =>
    match stats with
    | none => (Except.ok [pendingEnvelope], tr)
    | some stats =>
        let results := (pyLastN stats 12).map (fun wk =>
          JVal.jobj [("week_start", JVal.jstr (w.fromtimestamp wk.week)),
            ("total_commits", JVal.jint wk.total),
            ("days", JVal.jarr (wk.days.map JVal.jint))])
        (Except.ok [JVal.jobj [("repository", JVal.jstr fn),
          ("total_commits_year", JVal.jint ((stats.map (·.total)).sum)),
          ("weeks_tracked", JVal.jint stats.length),
          ("last_12_weeks", JVal.jarr results)]], tr)

/-- get_language_breakdown: sort languages by byte count descending;
`percentage` is the exact fraction bytes*100/total before rounding. -/
def op_getLanguageBreakdown (w : World) (a : Args) : OpResult :=
  let fn := fullName a.owner a.repo
  ghTry [] (RemoteCall.getRepo fn) (w.get_repo fn) fun _repo tr =>
  ghTry tr (RemoteCall.getLanguages fn) (w.get_languages fn) fun langs tr =>
    let total := (langs.map (·.2)).sum
    let sortedLangs := sortDescBy (fun y x => decide (x.2 ≤ y.2)) langs
    let results := sortedLangs.map (fun lb =>
      JVal.jobj [("language", JVal.jstr lb.1),
        ("bytes", JVal.jint lb.2),
        ("percentage", if 0 < total then JVal.jfrac (lb.2 * 100) total else JVal.jint 0)])
    (Except.ok [JVal.jobj [("repository", JVal.jstr fn),
      ("total_bytes", JVal.jint total),
      ("languages", JVal.jarr results)]], tr)

/-- One popular-path row of get_traffic_stats. -/
def pathRow (p : PathStat) : JVal :=
  JVal.jobj [("path", JVal.jstr p.path),
    ("title", JVal.jstr p.title),
    ("views", JVal.jint p.count),
    ("unique_visitors", JVal.jint p.uniques)]

/-- One referrer row of get_traffic_stats. -/
def refRow (r : RefStat) : JVal :=
  JVal.jobj [("referrer", JVal.jstr r.referrer),
    ("views", JVal.jint r.count),
    ("unique_visitors", JVal.jint r.uniques)]

/-- The 403 envelope of get_traffic_stats. -/
def trafficAccessDeniedEnvelope : JVal :=
  JVal.jobj [("error", JVal.jstr "Access denied"),
    ("message", JVal.jstr "Traffic statistics require push access to the repository."),
    ("suggestions", JVal.jarr [JVal.jstr "Ensure you have push (write) access to this repository",
      JVal.jstr "Use your own repository for traffic statistics",
      JVal.jstr "Check that your token has the \x27repo\x27 scope"])]

/-- get_traffic_stats: five adapter calls inside a try; a 403 anywhere is
mapped to the access-denied envelope, any other GithubException is
re-raised. -/
def op_getTrafficStats (w : World) (a : Args) : OpResult :=
  let fn := fullName a.owner a.repo
  let body : OpResult :=
    ghTry [] (RemoteCall.getRepo fn) (w.get_repo fn) fun _repo tr =>
    ghTry tr (RemoteCall.getViewsTraffic fn) (w.get_views_traffic fn) fun views tr =>
    ghTry tr (RemoteCall.getClonesTraffic fn) (w.get_clones_traffic fn) fun clones tr =>
    ghTry tr (RemoteCall.getTopPaths fn) (w.get_top_paths fn) fun paths tr =>
    ghTry tr (RemoteCall.getTopReferrers fn) (w.get_top_referrers fn) fun refs tr =>
      (Except.ok [JVal.jobj [("repository", JVal.jstr fn),
        ("views", JVal.jobj [("total", JVal.jint (views.count.getD 0)),
          ("unique", JVal.jint (views.uniques.getD 0))]),
        ("clones", JVal.jobj [("total", JVal.jint (clones.count.getD 0)),
          ("unique", JVal.jint (clones.uniques.getD 0))]),
        ("top_paths", JVal.jarr ((paths.map pathRow).take 10)),
        ("top_referrers", JVal.jarr ((refs.map refRow).take 10))]], tr)
  match body with
  | (Except.error (PyExc.githubExc e), tr) =>
      if e.status = some 403 then (Except.ok [trafficAccessDeniedEnvelope], tr)
      else (Except.error (PyExc.githubExc e), tr)
  | r => r

/-- get_community_health: try the community profile; on a
GithubException fall back to basic repo fields plus get_topics. -/
def op_getCommunityHealth (w : World) (a : Args) : OpResult :=
  let fn := fullName a.owner a.repo
  ghTry [] (RemoteCall.getRepo fn) (w.get_repo fn) fun repo tr =>
    match w.get_community_profile fn with
    | Except.ok profile =>
        (Except.ok [JVal.jobj [("repository", JVal.jstr fn),
          ("health_percentage", JVal.jint profile.health_percentage),
          ("description", jOptStr profile.description),
          ("documentation", jOptStr profile.documentation),
          ("files", JVal.jobj [("code_of_conduct", jOptStr profile.code_of_conduct),
            ("contributing", jOptStr profile.contributing),
            ("issue_template", jOptStr profile.issue_template),
            ("pull_request_template", jOptStr profile.pull_request_template),
            ("license", jOptStr profile.license_file),
            ("readme", jOptStr profile.readme)]),
          ("updated_at", jOptStr profile.updated_at)]],
         tr ++ [RemoteCall.getCommunityProfile fn])
    | Except.error _ =>
        ghTry (tr ++ [RemoteCall.getCommunityProfile fn]) (RemoteCall.getTopics fn)
          (w.get_topics fn) fun topics tr =>
          (Except.ok [JVal.jobj [("repository", JVal.jstr fn),
            ("description", jOptStr repo.description),
            ("has_issues", JVal.jbool repo.has_issues),
            ("has_wiki", JVal.jbool repo.has_wiki),
            ("has_downloads", JVal.jbool repo.has_downloads),
            ("has_projects", JVal.jbool repo.has_projects),
            ("license", jOptStr repo.license),
            ("homepage", jOptStr repo.homepage),
            ("default_branch", JVal.jstr repo.default_branch),
            ("open_issues_count", JVal.jint repo.open_issues_count),
            ("stargazers_count", JVal.jint repo.stargazers_count),
            ("watchers_count", JVal.jint repo.watchers_count),
            ("forks_count", JVal.jint repo.forks_count),
            ("topics", JVal.jarr (topics.map JVal.jstr)),
            ("url", JVal.jstr repo.html_url)]], tr)

/-- One row of list_commits. -/
def commitListRow (c : Commit) : JVal :=
  JVal.jobj [("sha", JVal.jstr c.sha),
    ("short_sha", JVal.jstr (c.sha.take 7)),
    ("message", JVal.jstr (firstLine c.message)),
    ("full_message", JVal.jstr c.message),
    ("author", match c.commit_author with
      | some ca => JVal.jstr ca.name
      | none => JVal.jstr "Unknown"),
    ("author_email", match c.commit_author with
      | some ca => JVal.jstr ca.email
      | none => JVal.null),
    ("author_login", jOptStr c.author_login),
    ("date", match c.commit_author with
      | some ca => JVal.jstr ca.date
      | none => JVal.null),
    ("url", JVal.jstr c.html_url)]

/-- list_commits: optional branch filter, slice to the clamped limit. -/
def op_listCommits (w : World) (a : Args) : OpResult :=
  let fn := fullName a.owner a.repo
  let lim : Int := min (a.limit.getD 10) 100
  ghTry [] (RemoteCall.getRepo fn) (w.get_repo fn) fun repo tr =>
  let shaArg := if pyTruthyStrOpt a.branch then some (pyStr a.branch) else none
  ghTry tr (RemoteCall.getCommits fn shaArg) (w.get_commits fn shaArg) fun commits tr =>
    let results := (pySliceTo commits lim).map commitListRow
    (Except.ok [JVal.jobj [("repository", JVal.jstr fn),
      ("branch", JVal.jstr (if pyTruthyStrOpt a.branch then pyStr a.branch else repo.default_branch)),
      ("total_returned", JVal.jint results.length),
      ("commits", JVal.jarr results)]], tr)

/-- One file row of get_commit_details, with the patch appended only when
requested and truthy. -/
def detailFileRow (include_patch : Bool) (f : DiffFile) : JVal :=
  let base := [("filename", JVal.jstr f.filename),
    ("status", JVal.jstr f.status),
    ("additions", JVal.jint f.additions),
    ("deletions", JVal.jint f.deletions),
    ("changes", JVal.jint f.changes)]
  if include_patch && !(f.patch.getD "").isEmpty then
    JVal.jobj (base ++ [("patch", JVal.jstr (f.patch.getD ""))])
  else JVal.jobj base

/-- get_commit_details: one commit with stats and every changed file. -/
def op_getCommitDetails (w : World) (a : Args) : OpResult :=
  let fn := fullName a.owner a.repo
  let include_patch := a.include_patch.getD false
  ghTry [] (RemoteCall.getRepo fn) (w.get_repo fn) fun _repo tr =>
  ghTry tr (RemoteCall.getCommit fn a.sha) (w.get_commit fn a.sha) fun c tr =>
    let files := c.files.map (detailFileRow include_patch)
    (Except.ok [JVal.jobj [("sha", JVal.jstr c.sha),
      ("message", JVal.jstr c.message),
      ("author", JVal.jobj [("name", match c.commit_author with
          | some ca => JVal.jstr ca.name
          | none => JVal.jstr "Unknown"),
        ("email", match c.commit_author with
          | some ca => JVal.jstr ca.email
          | none => JVal.null),
        ("login", jOptStr c.author_login),
        ("date", match c.commit_author with
          | some ca => JVal.jstr ca.date
          | none => JVal.null)]),
      ("committer", JVal.jobj [("name", match c.committer with
          | some ca => JVal.jstr ca.name
          | none => JVal.jstr "Unknown"),
        ("email", match c.committer with
          | some ca => JVal.jstr ca.email
          | none => JVal.null),
        ("date", match c.committer with
          | some ca => JVal.jstr ca.date
          | none => JVal.null)]),
      ("stats", JVal.jobj [("total", JVal.jint c.stats_total),
        ("additions", JVal.jint c.stats_additions),
        ("deletions", JVal.jint c.stats_deletions)]),
      ("files_changed", JVal.jint files.length),
      ("files", JVal.jarr files),
      ("parents", JVal.jarr (c.parents.map (fun p => JVal.jstr (p.take 7)))),
      ("url", JVal.jstr c.html_url)]], tr)

/-- `datetime.fromisoformat(s.replace(Z, +00:00))` on a truthy argument;
a parse failure raises ValueError. -/
def parseOptIso (w : World) (o : Option String) : Except String (Option String) :=
  if pyFalsyStrOpt o then Except.ok none
  else ((w.fromisoformat ((pyStr o).replace "Z" "+00:00")).map some)

/-- One row of search_commits. -/
def searchCommitRow (c : Commit) : JVal :=
  JVal.jobj [("sha", JVal.jstr c.sha),
    ("short_sha", JVal.jstr (c.sha.take 7)),
    ("message", JVal.jstr (firstLine c.message)),
    ("author", match c.commit_author with
      | some ca => JVal.jstr ca.name
      | none => JVal.jstr "Unknown"),
    ("author_login", jOptStr c.author_login),
    ("date", match c.commit_author with
      | some ca => JVal.jstr ca.date
      | none => JVal.null),
    ("url", JVal.jstr c.html_url)]

/-- search_commits: optional author/since/until/path filters (included
only when truthy), slice to the clamped limit. -/
def op_searchCommits (w : World) (a : Args) : OpResult :=
  let fn := fullName a.owner a.repo
  let lim : Int := min (a.limit.getD 10) 100
  let authorArg := truthyOrNone a.author
  let pathArg := truthyOrNone a.path
  ghTry [] (RemoteCall.getRepo fn) (w.get_repo fn) fun _repo tr =>
    match parseOptIso w a.since with
    | Except.error m => (Except.error (PyExc.valueError m), tr)
    | Except.ok sinceP =>
        match parseOptIso w a.until_arg with
        | Except.error m => (Except.error (PyExc.valueError m), tr)
        | Except.ok untilP =>
            ghTry tr (RemoteCall.getCommitsFiltered fn authorArg sinceP untilP pathArg)
              (w.get_commits_filtered fn authorArg sinceP untilP pathArg) fun commits tr =>
              let results := (pySliceTo commits lim).map searchCommitRow
              (Except.ok [JVal.jobj [("repository", JVal.jstr fn),
                ("filters", JVal.jobj [("author", jOptStr a.author),
                  ("since", jOptStr a.since),
                  ("until", jOptStr a.until_arg),
                  ("path", jOptStr a.path)]),
                ("total_returned", JVal.jint results.length),
                ("commits", JVal.jarr results)]], tr)

/-- One commit row of the two comparison operations. -/
def compareCommitRow (c : Commit) : JVal :=
  JVal.jobj [("sha", JVal.jstr (c.sha.take 7)),
    ("message", JVal.jstr (firstLine c.message)),
    ("author", match c.commit_author with
      | some ca => JVal.jstr ca.name
      | none => JVal.jstr "Unknown"),
    ("date", match c.commit_author with
      | some ca => JVal.jstr ca.date
      | none => JVal.null)]

/-- One file row of the two comparison operations. -/
def compareFileRow (f : DiffFile) : JVal :=
  JVal.jobj [("filename", JVal.jstr f.filename),
    ("status", JVal.jstr f.status),
    ("additions", JVal.jint f.additions),
    ("deletions", JVal.jint f.deletions)]

/-- compare_commits: commits truncated to 20 and files to 50, while
files_changed reports the untruncated count. -/
def op_compareCommits (w : World) (a : Args) : OpResult :=
  let fn := fullName a.owner a.repo
  ghTry [] (RemoteCall.getRepo fn) (w.get_repo fn) fun _repo tr =>
  ghTry tr (RemoteCall.compare fn a.base a.head) (w.compare fn a.base a.head) fun cmp tr =>
    (Except.ok [JVal.jobj [("repository", JVal.jstr fn),
      ("base", jOptStr a.base),
      ("head", jOptStr a.head),
      ("status", JVal.jstr cmp.status),
      ("ahead_by", JVal.jint cmp.ahead_by),
      ("behind_by", JVal.jint cmp.behind_by),
      ("total_commits", JVal.jint cmp.total_commits),
      ("commits", JVal.jarr ((cmp.commits.take 20).map compareCommitRow)),
      ("files_changed", JVal.jint cmp.files.length),
      ("files", JVal.jarr ((cmp.files.take 50).map compareFileRow)),
      ("url", JVal.jstr cmp.html_url)]], tr)

/-- The author bucket a commit is counted under in get_commit_stats. -/
def commitAuthorName (c : Commit) : String :=
  match c.author_login with
  | some l => l
  | none => match c.commit_author with
    | some ca => ca.name
    | none => "Unknown"

/-- Increment a key of an insertion-ordered counting dict. -/
def bumpKey : List (String × Nat) → String → List (String × Nat)
  | [], k => [(k, 1)]
  | (k2, v) :: rest, k =>
      if k2 = k then (k2, v + 1) :: rest else (k2, v) :: bumpKey rest k

/-- Bucket a commit by day when it has a commit author with a date. -/
def bumpDay (dm : List (String × Nat)) (c : Commit) : List (String × Nat) :=
  match c.commit_author with
  | some ca => bumpKey dm ca.day
  | none => dm

/-- The aggregation loop of get_commit_stats: count the commit, bucket it
by author and by day, and break once 500 commits have been counted. -/
def commitStatsLoop : List Commit → Nat → List (String × Nat) → List (String × Nat) →
    Nat × List (String × Nat) × List (String × Nat)
  | [], total, am, dm => (total, am, dm)
  | c :: rest, total, am, dm =>
      let total := total + 1
      let am := bumpKey am (commitAuthorName c)
      let dm := bumpDay dm c
      if 500 ≤ total then (total, am, dm) else commitStatsLoop rest total am dm

/-- One top-author row of get_commit_stats (additions and deletions are
initialized to 0 and never updated by the source). -/
def authorStatRow (p : String × Nat) : JVal :=
  JVal.jobj [("author", JVal.jstr p.1),
    ("commits", JVal.jint p.2),
    ("additions", JVal.jint 0),
    ("deletions", JVal.jint 0)]

/-- get_commit_stats: aggregate at most 500 commits since the requested
window start; `avg_commits_per_day` is the exact fraction before
rounding. -/
def op_getCommitStats (w : World) (a : Args) : OpResult :=
  let fn := fullName a.owner a.repo
  let days : Int := a.days.getD 30
  let since_date := w.nowMinusDays days
  ghTry [] (RemoteCall.getRepo fn) (w.get_repo fn) fun _repo tr =>
  ghTry tr (RemoteCall.getCommitsSince fn since_date)
    (w.get_commits_since fn since_date) fun commits tr =>
    let agg := commitStatsLoop commits 0 [] []
    let total_commits := agg.1
    let author_stats := agg.2.1
    let commits_by_day := agg.2.2
    let top_authors :=
      ((sortDescBy (fun y x => decide (x.2 ≤ y.2)) author_stats).take 10).map authorStatRow
    let day_items := (sortDescBy (fun y x => !(decide (y.1 < x.1))) commits_by_day).take 14
    (Except.ok [JVal.jobj [("repository", JVal.jstr fn),
      ("period_days", JVal.jint days),
      ("since", JVal.jstr since_date),
      ("total_commits", JVal.jint total_commits),
      ("unique_authors", JVal.jint author_stats.length),
      ("top_authors", JVal.jarr top_authors),
      ("commits_by_day", JVal.jobj (day_items.map (fun p => (p.1, JVal.jint p.2)))),
      ("avg_commits_per_day", if 0 < days then JVal.jfrac total_commits days else JVal.jint 0)]],
     tr)

/-- One row of list_branches. -/
def branchRow (b : Branch) : JVal :=
  JVal.jobj [("name", JVal.jstr b.name),
    ("protected", JVal.jbool b.is_protected),
    ("sha", JVal.jstr (b.commit_sha.take 7)),
    ("commit_message", match b.commit_message with
      | some m => JVal.jstr (firstLine m)
      | none => JVal.null)]

/-- list_branches: optional protected-only filter; no limit is applied. -/
def op_listBranches (w : World) (a : Args) : OpResult :=
  let fn := fullName a.owner a.repo
  let protected_only := a.protected_only.getD false
  ghTry [] (RemoteCall.getRepo fn) (w.get_repo fn) fun repo tr =>
  ghTry tr (RemoteCall.getBranches fn) (w.get_branches fn) fun branches tr =>
    let results := (branches.filter (fun b => !(protected_only && !b.is_protected))).map branchRow
    (Except.ok [JVal.jobj [("repository", JVal.jstr fn),
      ("default_branch", JVal.jstr repo.default_branch),
      ("total_branches", JVal.jint results.length),
      ("branches", JVal.jarr results)]], tr)

/-- create_branch: resolve the source branch (explicit or default), then
create the new ref at its head commit. -/
def op_createBranch (w : World) (a : Args) : OpResult :=
  let fn := fullName a.owner a.repo
  ghTry [] (RemoteCall.getRepo fn) (w.get_repo fn) fun repo tr =>
  let srcName := if pyTruthyStrOpt a.from_branch then pyStr a.from_branch else repo.default_branch
  ghTry tr (RemoteCall.getBranch fn srcName) (w.get_branch fn srcName) fun source tr =>
  let source_sha := source.commit_sha
  let refPath := "refs/heads/" ++ pyStr a.branch_name
  ghTry tr (RemoteCall.createGitRef fn refPath source_sha)
    (w.create_git_ref fn refPath source_sha) fun ref tr =>
    (Except.ok [JVal.jobj [("success", JVal.jbool true),
      ("repository", JVal.jstr fn),
      ("branch_created", jOptStr a.branch_name),
      ("from_branch", JVal.jstr (if pyTruthyStrOpt a.from_branch then pyStr a.from_branch else repo.default_branch)),
      ("sha", JVal.jstr (source_sha.take 7)),
      ("ref", JVal.jstr ref.ref_str)]], tr)

/-- delete_branch: refuse to delete the default branch before any ref
call; otherwise get the ref and delete it. -/
def op_deleteBranch (w : World) (a : Args) : OpResult :=
  let fn := fullName a.owner a.repo
  ghTry [] (RemoteCall.getRepo fn) (w.get_repo fn) fun repo tr =>
    if a.branch_name == some repo.default_branch then
      (Except.ok [JVal.jobj [("error", JVal.jstr "Cannot delete default branch"),
        ("message", JVal.jstr ("The branch \x27" ++ pyStr a.branch_name ++ "\x27 is the default branch and cannot be deleted.")),
        ("default_branch", JVal.jstr repo.default_branch)]], tr)
    else
      let refPath := "heads/" ++ pyStr a.branch_name
      ghTry tr (RemoteCall.getGitRef fn refPath) (w.get_git_ref fn refPath) fun _ref tr =>
      ghTry tr (RemoteCall.deleteRef fn refPath) (w.delete_ref fn refPath) fun _ tr =>
        (Except.ok [JVal.jobj [("success", JVal.jbool true),
          ("repository", JVal.jstr fn),
          ("branch_deleted", jOptStr a.branch_name)]], tr)

/-- merge_branches: the try wraps only the merge call; a 409 becomes the
merge-conflict envelope, other GithubExceptions are re-raised. -/
def op_mergeBranches (w : World) (a : Args) : OpResult :=
  let fn := fullName a.owner a.repo
  let commit_message := a.commit_message.getD ("Merge " ++ pyStr a.head ++ " into " ++ pyStr a.base)
  ghTry [] (RemoteCall.getRepo fn) (w.get_repo fn) fun _repo tr =>
    let rc := RemoteCall.merge fn a.base a.head commit_message
    match w.merge fn a.base a.head commit_message with
    | Except.ok mr =>
        (Except.ok [JVal.jobj [("success", JVal.jbool true),
          ("repository", JVal.jstr fn),
          ("base", jOptStr a.base),
          ("head", jOptStr a.head),
          ("merge_commit_sha", JVal.jstr mr.sha),
          ("message", JVal.jstr commit_message)]], tr ++ [rc])
    | Except.error e =>
        if e.status = some 409 then
          (Except.ok [JVal.jobj [("error", JVal.jstr "Merge conflict"),
            ("message", JVal.jstr "There are conflicts that must be resolved manually"),
            ("base", jOptStr a.base),
            ("head", jOptStr a.head)]], tr ++ [rc])
        else (Except.error (PyExc.githubExc e), tr ++ [rc])

/-- get_branch_protection: default the branch, report unprotected
branches plainly, and fetch the protection rules inside a try whose 404
is mapped to an explanatory envelope. -/
def op_getBranchProtection (w : World) (a : Args) : OpResult :=
  let fn := fullName a.owner a.repo
  ghTry [] (RemoteCall.getRepo fn) (w.get_repo fn) fun repo tr =>
  let branch_name := if pyTruthyStrOpt a.branch then pyStr a.branch else repo.default_branch
  ghTry tr (RemoteCall.getBranch fn branch_name) (w.get_branch fn branch_name) fun branch tr =>
    if branch.is_protected = false then
      (Except.ok [JVal.jobj [("repository", JVal.jstr fn),
        ("branch", JVal.jstr branch_name),
        ("protected", JVal.jbool false),
        ("message", JVal.jstr "This branch has no protection rules")]], tr)
    else
      let rc := RemoteCall.getProtection fn branch_name
      match w.get_protection fn branch_name with
      | Except.ok p =>
          (Except.ok [JVal.jobj [("repository", JVal.jstr fn),
            ("branch", JVal.jstr branch_name),
            ("protected", JVal.jbool true),
            ("enforce_admins", JVal.jbool (p.enforce_admins.getD false)),
            ("require_code_owner_reviews", JVal.jbool (match p.required_pull_request_reviews with
              | some r => r.require_code_owner_reviews
              | none => false)),
            ("required_approving_review_count", JVal.jint (match p.required_pull_request_reviews with
              | some r => r.required_approving_review_count
              | none => 0)),
            ("dismiss_stale_reviews", JVal.jbool (match p.required_pull_request_reviews with
              | some r => r.dismiss_stale_reviews
              | none => false)),
            ("require_linear_history", JVal.jbool (p.required_linear_history.getD false)),
            ("allow_force_pushes", JVal.jbool (p.allow_force_pushes.getD false)),
            ("allow_deletions", JVal.jbool (p.allow_deletions.getD false))]], tr ++ [rc])
      | Except.error e =>
          if e.status = some 404 then
            (Except.ok [JVal.jobj [("repository", JVal.jstr fn),
              ("branch", JVal.jstr branch_name),
              ("protected", JVal.jbool branch.is_protected),
              ("message", JVal.jstr "Protection rules could not be retrieved (may require admin access)")]],
             tr ++ [rc])
          else (Except.error (PyExc.githubExc e), tr ++ [rc])

/-- compare_branches: commits truncated to 20 and files to 30, while
files_changed and the addition/deletion totals cover every changed
file. -/
def op_compareBranches (w : World) (a : Args) : OpResult :=
  let fn := fullName a.owner a.repo
  ghTry [] (RemoteCall.getRepo fn) (w.get_repo fn) fun _repo tr =>
  ghTry tr (RemoteCall.compare fn a.base a.head) (w.compare fn a.base a.head) fun cmp tr =>
    (Except.ok [JVal.jobj [("repository", JVal.jstr fn),
      ("base", jOptStr a.base),
      ("head", jOptStr a.head),
      ("status", JVal.jstr cmp.status),
      ("ahead_by", JVal.jint cmp.ahead_by),
      ("behind_by", JVal.jint cmp.behind_by),
      ("total_commits", JVal.jint cmp.total_commits),
      ("commits", JVal.jarr ((cmp.commits.take 20).map compareCommitRow)),
      ("files_changed", JVal.jint cmp.files.length),
      ("additions", JVal.jint ((cmp.files.map (·.additions)).sum)),
      ("deletions", JVal.jint ((cmp.files.map (·.deletions)).sum)),
      ("files", JVal.jarr ((cmp.files.take 30).map compareFileRow)),
      ("url", JVal.jstr cmp.html_url)]], tr)

/-- The if/elif dispatch of handle_call_tool over the operation name;
an unmatched name raises ValueError (Unknown tool). -/
def dispatchTool (w : World) (name : String) (a : Args) : OpResult :=
  if name = "search_repositories" then op_searchRepositories w a
  else if name = "get_repository_info" then op_getRepositoryInfo w a
  else if name = "get_file_contents" then op_getFileContents w a
  else if name = "list_issues" then op_listIssues w a
  else if name = "get_user_info" then op_getUserInfo w a
  else if name = "list_pull_requests" then op_listPullRequests w a
  else if name = "create_issue" then op_createIssue w a
  else if name = "create_pull_request" then op_createPullRequest w a
  else if name = "add_issue_comment" then op_addIssueComment w a
  else if name = "add_pr_comment" then op_addPrComment w a
  else if name = "update_issue" then op_updateIssue w a
  else if name = "update_pull_request" then op_updatePullRequest w a
  else if name = "close_issue" then op_closeIssue w a
  else if name = "reopen_issue" then op_reopenIssue w a
  else if name = "close_pull_request" then op_closePullRequest w a
  else if name = "reopen_pull_request" then op_reopenPullRequest w a
  else if name = "get_contributor_stats" then op_getContributorStats w a
  else if name = "get_code_frequency" then op_getCodeFrequency w a
  else if name = "get_commit_activity" then op_getCommitActivity w a
  else if name = "get_language_breakdown" then op_getLanguageBreakdown w a
  else if name = "get_traffic_stats" then op_getTrafficStats w a
  else if name = "get_community_health" then op_getCommunityHealth w a
  else if name = "list_commits" then op_listCommits w a
  else if name = "get_commit_details" then op_getCommitDetails w a
  else if name = "search_commits" then op_searchCommits w a
  else if name = "compare_commits" then op_compareCommits w a
  else if name = "get_commit_stats" then op_getCommitStats w a
  else if name = "list_branches" then op_listBranches w a
  else if name = "create_branch" then op_createBranch w a
  else if name = "delete_branch" then op_deleteBranch w a
  else if name = "merge_branches" then op_mergeBranches w a
  else if name = "get_branch_protection" then op_getBranchProtection w a
  else if name = "compare_branches" then op_compareBranches w a
  else (Except.error (PyExc.valueError ("Unknown tool: " ++ name)), [])

/-- The three top-level except handlers of handle_call_tool: every
escaping exception becomes a single error envelope. -/
def finishTop (r : OpResult) : List JVal × List RemoteCall :=
  match r with
  | (Except.ok res, tr) => (res, tr)
  | (Except.error (PyExc.valueError m), tr) => ([configurationErrorEnvelope m], tr)
  | (Except.error (PyExc.githubExc e), tr) => ([githubApiErrorEnvelope e], tr)
  | (Except.error (PyExc.otherExc ty m), tr) => ([unexpectedErrorEnvelope ty m], tr)

/-- handle_call_tool: the client/token check precedes dispatch, and the
top-level except handlers wrap the whole body. -/
def handleCallTool (w : World) (name : String) (a : Args) : List JVal × List RemoteCall :=
  finishTop (if w.hasToken then dispatchTool w name a
             else (Except.error (PyExc.valueError tokenErrorMessage), []))

/-- A body outcome whose successful return is exactly one content
block. -/
def ok1 (r : OpResult) : Prop :=
  ∀ xs tr, r = (Except.ok xs, tr) → xs.length = 1

/-- Is this adapter call the branch-deletion sub-call? -/
def isDeleteRefCall : RemoteCall → Bool
  | RemoteCall.deleteRef _ _ => true
  | _ => false

/-- The payload of the first (and only) content block of a response. -/
def topPayload (r : List JVal × List RemoteCall) : JVal :=
  r.1.headD JVal.null

/-- The rows of a response whose payload is a bare JSON array. -/
def arrItems : JVal → Option (List JVal)
  | JVal.jarr xs => some xs
  | _ => none

/-- The rows under a named array field of an object payload. -/
def fieldItems (k : String) (v : JVal) : Option (List JVal) :=
  match v.getField k with
  | some (JVal.jarr xs) => some xs
  | _ => none

/-- A 404 GithubException used in concrete runs. -/
def ghe404 : GHErr := { status := some 404, msg := "404 not found", data := [] }

/-- A concrete repository whose default branch is main. -/
def repoA : Repo :=
  { full_name := "octo/hello", description := some "demo repo",
    stargazers_count := 5, forks_count := 2, watchers_count := 5,
    language := some "Python", open_issues_count := 1,
    default_branch := "main", created_at := "2020-01-01T00:00:00",
    updated_at := "2024-01-01T00:00:00", homepage := none,
    license := some "MIT", html_url := "https://github.com/octo/hello",
    has_issues := true, has_wiki := true, has_downloads := true,
    has_projects := true }

/-- A concrete plain issue (not a pull request). -/
def issueA : Issue :=
  { number := 1, title := "bug one", state := "open",
    created_at := "2024-01-02T00:00:00", updated_at := "2024-01-03T00:00:00",
    closed_at := none, user_login := "alice", labels := ["bug"],
    assignees := [], comments := 0, pull_request := false,
    html_url := "https://github.com/octo/hello/issues/1" }

/-- A second concrete plain issue. -/
def issueB : Issue :=
  { number := 2, title := "bug two", state := "open",
    created_at := "2024-01-04T00:00:00", updated_at := "2024-01-05T00:00:00",
    closed_at := none, user_login := "bob", labels := [],
    assignees := [], comments := 1, pull_request := false,
    html_url := "https://github.com/octo/hello/issues/2" }

/-- A concrete issue entry that is really a pull request. -/
def issuePR : Issue :=
  { number := 3, title := "a pr", state := "open",
    created_at := "2024-01-06T00:00:00", updated_at := "2024-01-07T00:00:00",
    closed_at := none, user_login := "carol", labels := [],
    assignees := [], comments := 0, pull_request := true,
    html_url := "https://github.com/octo/hello/pull/3" }

/-- A concrete pull request. -/
def pullA : Pull :=
  { number := 4, title := "feature", state := "open",
    created_at := "2024-01-08T00:00:00", updated_at := "2024-01-09T00:00:00",
    closed_at := none, user_login := "dave", merged := false, draft := false,
    head_ref := "feature", base_ref := "main",
    html_url := "https://github.com/octo/hello/pull/4" }

/-- A concrete comment. -/
def commentA : Comment :=
  { id := 10, body := "looks good", user_login := "erin",
    created_at := "2024-01-10T00:00:00",
    html_url := "https://github.com/octo/hello/issues/1#issuecomment-10" }

/-- A concrete user. -/
def userA : User :=
  { login := "alice", name := some "Alice", bio := none, company := none,
    location := none, email := none, public_repos := 3, followers := 1,
    following := 2, created_at := "2019-01-01T00:00:00",
    html_url := "https://github.com/alice" }

/-- A concrete commit author record. -/
def commitAuthorA : CommitAuthor :=
  { name := "Alice", email := "alice@example.com",
    date := "2024-01-11T00:00:00", day := "2024-01-11" }

/-- A concrete commit. -/
def commitA : Commit :=
  { sha := "abcdef1234567890", message := "first line\nrest",
    author_login := some "alice", commit_author := some commitAuthorA,
    html_url := "https://github.com/octo/hello/commit/abcdef1" }

/-- A concrete changed file. -/
def fileA : DiffFile :=
  { filename := "a.py", status := "modified", additions := 3, deletions := 1,
    changes := 4, patch := none }

/-- A concrete detailed commit. -/
def detCommitA : DetailedCommit :=
  { sha := "abcdef1234567890", message := "first line\nrest",
    author_login := some "alice", commit_author := some commitAuthorA,
    committer := some commitAuthorA, stats_total := 4, stats_additions := 3,
    stats_deletions := 1, files := [fileA], parents := ["0123456789abcdef"],
    html_url := "https://github.com/octo/hello/commit/abcdef1" }

/-- A concrete comparison. -/
def comparisonA : Comparison :=
  { status := "ahead", ahead_by := 1, behind_by := 0, total_commits := 1,
    commits := [commitA], files := [fileA],
    html_url := "https://github.com/octo/hello/compare/main...feature" }

/-- A concrete comparison with 60 changed files (more than the 50-file
and 30-file display truncations). -/
def comparisonBig : Comparison :=
  { status := "ahead", ahead_by := 1, behind_by := 0, total_commits := 1,
    commits := [commitA],
    files := List.replicate 60 fileA,
    html_url := "https://github.com/octo/hello/compare/main...feature" }

/-- A concrete branch. -/
def branchA : Branch :=
  { name := "feature", is_protected := false,
    commit_sha := "abcdef1234567890", commit_message := some "first line\nrest" }

/-- A concrete community profile. -/
def profileA : Profile :=
  { health_percentage := 80, description := some "demo repo",
    documentation := none, code_of_conduct := none, contributing := none,
    issue_template := none, pull_request_template := none,
    license_file := some "https://api.github.com/licenses/mit",
    readme := some "https://github.com/octo/hello/blob/main/README.md",
    updated_at := some "2024-01-01T00:00:00" }

/-- A concrete protection object. -/
def protectionA : Protection :=
  { enforce_admins := some true, required_pull_request_reviews := none,
    required_linear_history := none, allow_force_pushes := none,
    allow_deletions := none }

/-- A concrete world with a token, used to instantiate the theorems:
every adapter call succeeds with the concrete objects above. -/
def wBase : World :=
  { hasToken := true,
    search_repositories := fun _ _ => Except.ok [repoA],
    get_repo := fun _ => Except.ok repoA,
    get_contents := fun _ _ _ => Except.ok "file text",
    get_issues := fun _ _ => Except.ok [issueA, issueB],
    get_pulls := fun _ _ => Except.ok [pullA],
    get_user := fun _ => Except.ok userA,
    get_issue := fun _ _ => Except.ok issueA,
    get_pull := fun _ _ => Except.ok pullA,
    create_issue := fun _ _ _ _ _ _ => Except.ok issueA,
    create_pull := fun _ _ _ _ _ _ => Except.ok pullA,
    create_comment := fun _ _ _ => Except.ok commentA,
    create_pr_comment := fun _ _ _ => Except.ok commentA,
    edit_issue := fun _ _ _ => Except.ok (),
    edit_pull := fun _ _ _ => Except.ok (),
    get_stats_contributors := fun _ => Except.ok none,
    get_stats_code_frequency := fun _ => Except.ok none,
    get_stats_commit_activity := fun _ => Except.ok none,
    get_languages := fun _ => Except.ok [("Python", 900), ("Shell", 100)],
    get_views_traffic := fun _ => Except.ok { count := some 7, uniques := some 3 },
    get_clones_traffic := fun _ => Except.ok { count := some 2, uniques := some 1 },
    get_top_paths := fun _ => Except.ok [],
    get_top_referrers := fun _ => Except.ok [],
    get_community_profile := fun _ => Except.ok profileA,
    get_topics := fun _ => Except.ok ["demo"],
    get_commits := fun _ _ => Except.ok [commitA],
    get_commits_filtered := fun _ _ _ _ _ => Except.ok [commitA],
    get_commits_since := fun _ _ => Except.ok [commitA],
    get_commit := fun _ _ => Except.ok detCommitA,
    compare := fun _ _ _ => Except.ok comparisonA,
    get_branches := fun _ => Except.ok [branchA],
    get_branch := fun _ _ => Except.ok branchA,
    create_git_ref := fun _ r _ => Except.ok { ref_str := r },
    get_git_ref := fun _ r => Except.ok { ref_str := r },
    delete_ref := fun _ _ => Except.ok (),
    get_protection := fun _ _ => Except.ok protectionA,
    merge := fun _ _ _ _ => Except.ok { sha := "fedcba0987654321" },
    nowMinusDays := fun _ => "2023-12-02T00:00:00",
    fromtimestamp := fun _ => "2024-01-01T00:00:00",
    fromisoformat := fun s => Except.ok s }

/-- Arguments for add_issue_comment that omit the required body. -/
def aC1 : Args := { owner := some "octo", repo := some "hello", issue_number := some 1 }

/-- Arguments for delete_branch targeting the default branch. -/
def aC4 : Args := { owner := some "octo", repo := some "hello", branch_name := some "main" }

/-- Arguments for list_issues with limit 2. -/
def aC5 : Args := { owner := some "octo", repo := some "hello", limit := some 2 }

/-- A world whose issue listing interleaves a pull request before two
real issues. -/
def wC5 : World :=
  { wBase with get_issues := fun _ _ => Except.ok [issuePR, issueA, issueB] }

/-- A world where content lookup fails everywhere except on master. -/
def wC6 : World :=
  { wBase with get_contents := fun _ _ r =>
      if r = "master" then Except.ok "master text" else Except.error ghe404 }

/-- A world returning 501 commits in the statistics window. -/
def wC9 : World :=
  { wBase with get_commits_since := fun _ _ => Except.ok (List.replicate 501 commitA) }

/-- A world whose comparison has 60 changed files. -/
def wC10 : World :=
  { wBase with compare := fun _ _ _ => Except.ok comparisonBig }

/-- Arguments for get_file_contents with the default branch argument. -/
def aC6 : Args := { owner := some "octo", repo := some "hello", path := some "README.md" }

/-- Arguments for get_commit_stats over a 30-day window. -/
def aC9 : Args := { owner := some "octo", repo := some "hello", days := some 30 }

/-- Arguments for the comparison operations. -/
def aC10 : Args :=
  { owner := some "octo", repo := some "hello", base := some "main", head := some "feature" }

/-- Arguments with limit 500 for the limit-accepting operations. -/
def aLimit500 : Args :=
  { owner := some "octo", repo := some "hello", query := some "language:python", limit := some 500 }

/-- Arguments with limit 0 for search_repositories. -/
def aLimit0 : Args :=
  { owner := some "octo", repo := some "hello", query := some "language:python", limit := some 0 }

/-- The same world with its commit window truncated to its first 500
commits. -/
def truncateCommitWindow (w : World) : World :=
  { w with get_commits_since := fun s d => (w.get_commits_since s d).map (List.take 500) }

/-! ## Theorems -/

/-- Every successful return of op_searchRepositories is a single content block. -/
theorem op_searchRepositories_ok1 (w : World) (a : Args) : ok1 (op_searchRepositories w a) := by
  intro xs tr h
  unfold op_searchRepositories ghTry at h
  dsimp only at h
  repeat' split at h
  all_goals (try simp_all)
  all_goals (obtain ⟨h1, h2⟩ := h; subst h1; rfl)

/-- Every successful return of op_getRepositoryInfo is a single content block. -/
theorem op_getRepositoryInfo_ok1 (w : World) (a : Args) : ok1 (op_getRepositoryInfo w a) := by
  intro xs tr h
  unfold op_getRepositoryInfo ghTry at h
  dsimp only at h
  repeat' split at h
  all_goals (try simp_all)
  all_goals (obtain ⟨h1, h2⟩ := h; subst h1; rfl)

/-- Every successful return of op_getFileContents is a single content block. -/
theorem op_getFileContents_ok1 (w : World) (a : Args) : ok1 (op_getFileContents w a) := by
  intro xs tr h
  unfold op_getFileContents ghTry at h
  dsimp only at h
  repeat' split at h
  all_goals (try simp_all)
  all_goals (obtain ⟨h1, h2⟩ := h; subst h1; rfl)

/-- Every successful return of op_listIssues is a single content block. -/
theorem op_listIssues_ok1 (w : World) (a : Args) : ok1 (op_listIssues w a) := by
  intro xs tr h
  unfold op_listIssues ghTry at h
  dsimp only at h
  repeat' split at h
  all_goals (try simp_all)
  all_goals (obtain ⟨h1, h2⟩ := h; subst h1; rfl)

/-- Every successful return of op_getUserInfo is a single content block. -/
theorem op_getUserInfo_ok1 (w : World) (a : Args) : ok1 (op_getUserInfo w a) := by
  intro xs tr h
  unfold op_getUserInfo ghTry at h
  dsimp only at h
  repeat' split at h
  all_goals (try simp_all)
  all_goals (obtain ⟨h1, h2⟩ := h; subst h1; rfl)

/-- Every successful return of op_listPullRequests is a single content block. -/
theorem op_listPullRequests_ok1 (w : World) (a : Args) : ok1 (op_listPullRequests w a) := by
  intro xs tr h
  unfold op_listPullRequests ghTry at h
  dsimp only at h
  repeat' split at h
  all_goals (try simp_all)
  all_goals (obtain ⟨h1, h2⟩ := h; subst h1; rfl)

/-- Every successful return of op_addIssueComment is a single content block. -/
theorem op_addIssueComment_ok1 (w : World) (a : Args) : ok1 (op_addIssueComment w a) := by
  intro xs tr h
  unfold op_addIssueComment ghTry at h
  dsimp only at h
  repeat' split at h
  all_goals (try simp_all)
  all_goals (obtain ⟨h1, h2⟩ := h; subst h1; rfl)

/-- Every successful return of op_addPrComment is a single content block. -/
theorem op_addPrComment_ok1 (w : World) (a : Args) : ok1 (op_addPrComment w a) := by
  intro xs tr h
  unfold op_addPrComment ghTry at h
  dsimp only at h
  repeat' split at h
  all_goals (try simp_all)
  all_goals (obtain ⟨h1, h2⟩ := h; subst h1; rfl)

/-- Every successful return of op_updateIssue is a single content block. -/
theorem op_updateIssue_ok1 (w : World) (a : Args) : ok1 (op_updateIssue w a) := by
  intro xs tr h
  unfold op_updateIssue ghTry at h
  dsimp only at h
  repeat' split at h
  all_goals (try simp_all)
  all_goals (obtain ⟨h1, h2⟩ := h; subst h1; rfl)

/-- Every successful return of op_updatePullRequest is a single content block. -/
theorem op_updatePullRequest_ok1 (w : World) (a : Args) : ok1 (op_updatePullRequest w a) := by
  intro xs tr h
  unfold op_updatePullRequest ghTry at h
  dsimp only at h
  repeat' split at h
  all_goals (try simp_all)
  all_goals (obtain ⟨h1, h2⟩ := h; subst h1; rfl)

/-- Every successful return of op_closeIssue is a single content block. -/
theorem op_closeIssue_ok1 (w : World) (a : Args) : ok1 (op_closeIssue w a) := by
  intro xs tr h
  unfold op_closeIssue ghTry at h
  dsimp only at h
  repeat' split at h
  all_goals (try simp_all)
  all_goals (obtain ⟨h1, h2⟩ := h; subst h1; rfl)

/-- Every successful return of op_reopenIssue is a single content block. -/
theorem op_reopenIssue_ok1 (w : World) (a : Args) : ok1 (op_reopenIssue w a) := by
  intro xs tr h
  unfold op_reopenIssue ghTry at h
  dsimp only at h
  repeat' split at h
  all_goals (try simp_all)
  all_goals (obtain ⟨h1, h2⟩ := h; subst h1; rfl)

/-- Every successful return of op_closePullRequest is a single content block. -/
theorem op_closePullRequest_ok1 (w : World) (a : Args) : ok1 (op_closePullRequest w a) := by
  intro xs tr h
  unfold op_closePullRequest ghTry at h
  dsimp only at h
  repeat' split at h
  all_goals (try simp_all)
  all_goals (obtain ⟨h1, h2⟩ := h; subst h1; rfl)

/-- Every successful return of op_reopenPullRequest is a single content block. -/
theorem op_reopenPullRequest_ok1 (w : World) (a : Args) : ok1 (op_reopenPullRequest w a) := by
  intro xs tr h
  unfold op_reopenPullRequest ghTry at h
  dsimp only at h
  repeat' split at h
  all_goals (try simp_all)
  all_goals (obtain ⟨h1, h2⟩ := h; subst h1; rfl)

/-- Every successful return of op_getContributorStats is a single content block. -/
theorem op_getContributorStats_ok1 (w : World) (a : Args) : ok1 (op_getContributorStats w a) := by
  intro xs tr h
  unfold op_getContributorStats ghTry at h
  dsimp only at h
  repeat' split at h
  all_goals (try simp_all)
  all_goals (obtain ⟨h1, h2⟩ := h; subst h1; rfl)

/-- Every successful return of op_getCodeFrequency is a single content block. -/
theorem op_getCodeFrequency_ok1 (w : World) (a : Args) : ok1 (op_getCodeFrequency w a) := by
  intro xs tr h
  unfold op_getCodeFrequency ghTry at h
  dsimp only at h
  repeat' split at h
  all_goals (try simp_all)
  all_goals (obtain ⟨h1, h2⟩ := h; subst h1; rfl)

/-- Every successful return of op_getCommitActivity is a single content block. -/
theorem op_getCommitActivity_ok1 (w : World) (a : Args) : ok1 (op_getCommitActivity w a) := by
  intro xs tr h
  unfold op_getCommitActivity ghTry at h
  dsimp only at h
  repeat' split at h
  all_goals (try simp_all)
  all_goals (obtain ⟨h1, h2⟩ := h; subst h1; rfl)

/-- Every successful return of op_getLanguageBreakdown is a single content block. -/
theorem op_getLanguageBreakdown_ok1 (w : World) (a : Args) : ok1 (op_getLanguageBreakdown w a) := by
  intro xs tr h
  unfold op_getLanguageBreakdown ghTry at h
  dsimp only at h
  repeat' split at h
  all_goals (try simp_all)
  all_goals (obtain ⟨h1, h2⟩ := h; subst h1; rfl)

/-- Every successful return of op_getTrafficStats is a single content block. -/
theorem op_getTrafficStats_ok1 (w : World) (a : Args) : ok1 (op_getTrafficStats w a) := by
  intro xs tr h
  unfold op_getTrafficStats ghTry at h
  dsimp only at h
  repeat' split at h
  all_goals (try simp_all)
  all_goals (obtain ⟨h1, h2⟩ := h; subst h1; rfl)

/-- Every successful return of op_getCommunityHealth is a single content block. -/
theorem op_getCommunityHealth_ok1 (w : World) (a : Args) : ok1 (op_getCommunityHealth w a) := by
  intro xs tr h
  unfold op_getCommunityHealth ghTry at h
  dsimp only at h
  repeat' split at h
  all_goals (try simp_all)
  all_goals (obtain ⟨h1, h2⟩ := h; subst h1; rfl)

/-- Every successful return of op_listCommits is a single content block. -/
theorem op_listCommits_ok1 (w : World) (a : Args) : ok1 (op_listCommits w a) := by
  intro xs tr h
  unfold op_listCommits ghTry at h
  dsimp only at h
  repeat' split at h
  all_goals (try simp_all)
  all_goals (obtain ⟨h1, h2⟩ := h; subst h1; rfl)

/-- Every successful return of op_getCommitDetails is a single content block. -/
theorem op_getCommitDetails_ok1 (w : World) (a : Args) : ok1 (op_getCommitDetails w a) := by
  intro xs tr h
  unfold op_getCommitDetails ghTry at h
  dsimp only at h
  repeat' split at h
  all_goals (try simp_all)
  all_goals (obtain ⟨h1, h2⟩ := h; subst h1; rfl)

/-- Every successful return of op_searchCommits is a single content block. -/
theorem op_searchCommits_ok1 (w : World) (a : Args) : ok1 (op_searchCommits w a) := by
  intro xs tr h
  unfold op_searchCommits ghTry at h
  dsimp only at h
  repeat' split at h
  all_goals (try simp_all)
  all_goals (obtain ⟨h1, h2⟩ := h; subst h1; rfl)

/-- Every successful return of op_compareCommits is a single content block. -/
theorem op_compareCommits_ok1 (w : World) (a : Args) : ok1 (op_compareCommits w a) := by
  intro xs tr h
  unfold op_compareCommits ghTry at h
  dsimp only at h
  repeat' split at h
  all_goals (try simp_all)
  all_goals (obtain ⟨h1, h2⟩ := h; subst h1; rfl)

/-- Every successful return of op_getCommitStats is a single content block. -/
theorem op_getCommitStats_ok1 (w : World) (a : Args) : ok1 (op_getCommitStats w a) := by
  intro xs tr h
  unfold op_getCommitStats ghTry at h
  dsimp only at h
  repeat' split at h
  all_goals (try simp_all)
  all_goals (obtain ⟨h1, h2⟩ := h; subst h1; rfl)

/-- Every successful return of op_listBranches is a single content block. -/
theorem op_listBranches_ok1 (w : World) (a : Args) : ok1 (op_listBranches w a) := by
  intro xs tr h
  unfold op_listBranches ghTry at h
  dsimp only at h
  repeat' split at h
  all_goals (try simp_all)
  all_goals (obtain ⟨h1, h2⟩ := h; subst h1; rfl)

/-- Every successful return of op_createBranch is a single content block. -/
theorem op_createBranch_ok1 (w : World) (a : Args) : ok1 (op_createBranch w a) := by
  intro xs tr h
  unfold op_createBranch ghTry at h
  dsimp only at h
  repeat' split at h
  all_goals (try simp_all)
  all_goals (obtain ⟨h1, h2⟩ := h; subst h1; rfl)

/-- Every successful return of op_deleteBranch is a single content block. -/
theorem op_deleteBranch_ok1 (w : World) (a : Args) : ok1 (op_deleteBranch w a) := by
  intro xs tr h
  unfold op_deleteBranch ghTry at h
  dsimp only at h
  repeat' split at h
  all_goals (try simp_all)
  all_goals (obtain ⟨h1, h2⟩ := h; subst h1; rfl)

/-- Every successful return of op_mergeBranches is a single content block. -/
theorem op_mergeBranches_ok1 (w : World) (a : Args) : ok1 (op_mergeBranches w a) := by
  intro xs tr h
  unfold op_mergeBranches ghTry at h
  dsimp only at h
  repeat' split at h
  all_goals (try simp_all)
  all_goals (obtain ⟨h1, h2⟩ := h; subst h1; rfl)

/-- Every successful return of op_getBranchProtection is a single content block. -/
theorem op_getBranchProtection_ok1 (w : World) (a : Args) : ok1 (op_getBranchProtection w a) := by
  intro xs tr h
  unfold op_getBranchProtection ghTry at h
  dsimp only at h
  repeat' split at h
  all_goals (try simp_all)
  all_goals (obtain ⟨h1, h2⟩ := h; subst h1; rfl)

/-- Every successful return of op_compareBranches is a single content block. -/
theorem op_compareBranches_ok1 (w : World) (a : Args) : ok1 (op_compareBranches w a) := by
  intro xs tr h
  unfold op_compareBranches ghTry at h
  dsimp only at h
  repeat' split at h
  all_goals (try simp_all)
  all_goals (obtain ⟨h1, h2⟩ := h; subst h1; rfl)

/-- Every successful return of op_createIssue is a single content block. -/
theorem op_createIssue_ok1 (w : World) (a : Args) : ok1 (op_createIssue w a) := by
  intro xs tr h
  unfold op_createIssue at h
  dsimp only at h
  repeat' split at h
  all_goals (try simp_all)
  all_goals (obtain ⟨h1, h2⟩ := h; subst h1; rfl)

/-- Every successful return of op_createPullRequest is a single content block. -/
theorem op_createPullRequest_ok1 (w : World) (a : Args) : ok1 (op_createPullRequest w a) := by
  intro xs tr h
  unfold op_createPullRequest at h
  dsimp only at h
  repeat' split at h
  all_goals (try simp_all)
  all_goals (obtain ⟨h1, h2⟩ := h; subst h1; rfl)


/-- Every operation body, and the unknown-tool branch, returns a single
content block when it returns at all. -/
theorem dispatchTool_ok1 (w : World) (name : String) (a : Args) :
    ok1 (dispatchTool w name a) := by
  intro xs tr h
  unfold dispatchTool at h
  by_cases h1 : name = "search_repositories"
  · rw [if_pos h1] at h
    exact op_searchRepositories_ok1 w a xs tr h
  rw [if_neg h1] at h
  by_cases h2 : name = "get_repository_info"
  · rw [if_pos h2] at h
    exact op_getRepositoryInfo_ok1 w a xs tr h
  rw [if_neg h2] at h
  by_cases h3 : name = "get_file_contents"
  · rw [if_pos h3] at h
    exact op_getFileContents_ok1 w a xs tr h
  rw [if_neg h3] at h
  by_cases h4 : name = "list_issues"
  · rw [if_pos h4] at h
    exact op_listIssues_ok1 w a xs tr h
  rw [if_neg h4] at h
  by_cases h5 : name = "get_user_info"
  · rw [if_pos h5] at h
    exact op_getUserInfo_ok1 w a xs tr h
  rw [if_neg h5] at h
  by_cases h6 : name = "list_pull_requests"
  · rw [if_pos h6] at h
    exact op_listPullRequests_ok1 w a xs tr h
  rw [if_neg h6] at h
  by_cases h7 : name = "create_issue"
  · rw [if_pos h7] at h
    exact op_createIssue_ok1 w a xs tr h
  rw [if_neg h7] at h
  by_cases h8 : name = "create_pull_request"
  · rw [if_pos h8] at h
    exact op_createPullRequest_ok1 w a xs tr h
  rw [if_neg h8] at h
  by_cases h9 : name = "add_issue_comment"
  · rw [if_pos h9] at h
    exact op_addIssueComment_ok1 w a xs tr h
  rw [if_neg h9] at h
  by_cases h10 : name = "add_pr_comment"
  · rw [if_pos h10] at h
    exact op_addPrComment_ok1 w a xs tr h
  rw [if_neg h10] at h
  by_cases h11 : name = "update_issue"
  · rw [if_pos h11] at h
    exact op_updateIssue_ok1 w a xs tr h
  rw [if_neg h11] at h
  by_cases h12 : name = "update_pull_request"
  · rw [if_pos h12] at h
    exact op_updatePullRequest_ok1 w a xs tr h
  rw [if_neg h12] at h
  by_cases h13 : name = "close_issue"
  · rw [if_pos h13] at h
    exact op_closeIssue_ok1 w a xs tr h
  rw [if_neg h13] at h
  by_cases h14 : name = "reopen_issue"
  · rw [if_pos h14] at h
    exact op_reopenIssue_ok1 w a xs tr h
  rw [if_neg h14] at h
  by_cases h15 : name = "close_pull_request"
  · rw [if_pos h15] at h
    exact op_closePullRequest_ok1 w a xs tr h
  rw [if_neg h15] at h
  by_cases h16 : name = "reopen_pull_request"
  · rw [if_pos h16] at h
    exact op_reopenPullRequest_ok1 w a xs tr h
  rw [if_neg h16] at h
  by_cases h17 : name = "get_contributor_stats"
  · rw [if_pos h17] at h
    exact op_getContributorStats_ok1 w a xs tr h
  rw [if_neg h17] at h
  by_cases h18 : name = "get_code_frequency"
  · rw [if_pos h18] at h
    exact op_getCodeFrequency_ok1 w a xs tr h
  rw [if_neg h18] at h
  by_cases h19 : name = "get_commit_activity"
  · rw [if_pos h19] at h
    exact op_getCommitActivity_ok1 w a xs tr h
  rw [if_neg h19] at h
  by_cases h20 : name = "get_language_breakdown"
  · rw [if_pos h20] at h
    exact op_getLanguageBreakdown_ok1 w a xs tr h
  rw [if_neg h20] at h
  by_cases h21 : name = "get_traffic_stats"
  · rw [if_pos h21] at h
    exact op_getTrafficStats_ok1 w a xs tr h
  rw [if_neg h21] at h
  by_cases h22 : name = "get_community_health"
  · rw [if_pos h22] at h
    exact op_getCommunityHealth_ok1 w a xs tr h
  rw [if_neg h22] at h
  by_cases h23 : name = "list_commits"
  · rw [if_pos h23] at h
    exact op_listCommits_ok1 w a xs tr h
  rw [if_neg h23] at h
  by_cases h24 : name = "get_commit_details"
  · rw [if_pos h24] at h
    exact op_getCommitDetails_ok1 w a xs tr h
  rw [if_neg h24] at h
  by_cases h25 : name = "search_commits"
  · rw [if_pos h25] at h
    exact op_searchCommits_ok1 w a xs tr h
  rw [if_neg h25] at h
  by_cases h26 : name = "compare_commits"
  · rw [if_pos h26] at h
    exact op_compareCommits_ok1 w a xs tr h
  rw [if_neg h26] at h
  by_cases h27 : name = "get_commit_stats"
  · rw [if_pos h27] at h
    exact op_getCommitStats_ok1 w a xs tr h
  rw [if_neg h27] at h
  by_cases h28 : name = "list_branches"
  · rw [if_pos h28] at h
    exact op_listBranches_ok1 w a xs tr h
  rw [if_neg h28] at h
  by_cases h29 : name = "create_branch"
  · rw [if_pos h29] at h
    exact op_createBranch_ok1 w a xs tr h
  rw [if_neg h29] at h
  by_cases h30 : name = "delete_branch"
  · rw [if_pos h30] at h
    exact op_deleteBranch_ok1 w a xs tr h
  rw [if_neg h30] at h
  by_cases h31 : name = "merge_branches"
  · rw [if_pos h31] at h
    exact op_mergeBranches_ok1 w a xs tr h
  rw [if_neg h31] at h
  by_cases h32 : name = "get_branch_protection"
  · rw [if_pos h32] at h
    exact op_getBranchProtection_ok1 w a xs tr h
  rw [if_neg h32] at h
  by_cases h33 : name = "compare_branches"
  · rw [if_pos h33] at h
    exact op_compareBranches_ok1 w a xs tr h
  rw [if_neg h33] at h
  simp at h

/-- With a token present, handle_call_tool is dispatch followed by the
top-level except handlers. -/
theorem handleCallTool_token (w : World) (name : String) (a : Args)
    (hT : w.hasToken = true) :
    handleCallTool w name a = finishTop (dispatchTool w name a) := by
  unfold handleCallTool
  rw [hT, if_pos rfl]

/-- Without a token, every invocation yields the configuration-error
envelope and no adapter call. -/
theorem handleCallTool_notoken (w : World) (name : String) (a : Args)
    (hT : w.hasToken = false) :
    handleCallTool w name a = ([configurationErrorEnvelope tokenErrorMessage], []) := by
  unfold handleCallTool
  rw [hT, if_neg (by simp)]
  rfl

/-- C3: every invocation of `handle_call_tool`, for every operation name,
argument mapping and remote behaviour, returns exactly one content block;
no exception from an operation body (remote failure, validation raise, or
unknown tool) escapes past the top-level except handlers. -/
theorem C3_single_envelope (w : World) (name : String) (a : Args) :
    ((handleCallTool w name a).1).length = 1 := by
  cases hT : w.hasToken
  · rw [handleCallTool_notoken w name a hT]
    rfl
  · rw [handleCallTool_token w name a hT]
    rcases hr : dispatchTool w name a with ⟨res, tr⟩
    cases res with
    | ok xs =>
        have h1 := dispatchTool_ok1 w name a xs tr hr
        simp [finishTop, h1]
    | error e => cases e <;> simp [finishTop]

/-- C4: for every invocation of delete_branch whose branch_name equals
the configured default branch of the repository, the response is the
structured cannot-delete error envelope, the trace is exactly the
repository lookup, and no ref-deletion sub-call is ever issued. -/
theorem C4_delete_default_branch_refused (w : World) (a : Args) (repo : Repo)
    (hT : w.hasToken = true)
    (hrepo : w.get_repo (fullName a.owner a.repo) = Except.ok repo)
    (hdef : a.branch_name = some repo.default_branch) :
    handleCallTool w "delete_branch" a =
      ([JVal.jobj [("error", JVal.jstr "Cannot delete default branch"),
        ("message", JVal.jstr ("The branch \x27" ++ pyStr a.branch_name ++ "\x27 is the default branch and cannot be deleted.")),
        ("default_branch", JVal.jstr repo.default_branch)]],
       [RemoteCall.getRepo (fullName a.owner a.repo)]) ∧
    ((handleCallTool w "delete_branch" a).2.filter isDeleteRefCall).length = 0 := by
  have hdisp : dispatchTool w "delete_branch" a = op_deleteBranch w a := rfl
  rw [handleCallTool_token w "delete_branch" a hT, hdisp]
  unfold op_deleteBranch ghTry
  dsimp only
  rw [hrepo]
  dsimp only
  rw [hdef]
  simp [finishTop, isDeleteRefCall, pyStr]

/-- Witness for C4 at a concrete world and input. -/
theorem C4_delete_default_branch_refused_witness :
    wBase.hasToken = true ∧
    wBase.get_repo (fullName aC4.owner aC4.repo) = Except.ok repoA ∧
    aC4.branch_name = some repoA.default_branch ∧
    ((handleCallTool wBase "delete_branch" aC4).2.filter isDeleteRefCall).length = 0 :=
  ⟨rfl, rfl, rfl, (C4_delete_default_branch_refused wBase aC4 repoA rfl rfl rfl).2⟩

/-- C1 (counterexample): invoking add_issue_comment while omitting the
required body parameter performs three adapter calls (repository, issue,
comment creation) and returns a success payload with no error field at
all — neither a ValidationError envelope nor zero remote calls. -/
theorem C1_counterexample :
    (handleCallTool wBase "add_issue_comment" aC1).2 =
      [RemoteCall.getRepo "octo/hello", RemoteCall.getIssue "octo/hello" (some 1),
       RemoteCall.createComment "octo/hello" (some 1) none] ∧
    (topPayload (handleCallTool wBase "add_issue_comment" aC1)).getField "error" = none :=
  ⟨rfl, rfl⟩

/-- C1 (amended): only create_issue (and create_pull_request, which
shares the code shape) validates required parameters locally — a missing
owner is rejected with a structured envelope and zero adapter calls;
add_issue_comment performs no local validation: with the required body
omitted it still issues at least one adapter call and its envelope is
never a ValidationError (any error field it can carry is the generic
GitHub API Error of the top-level handler). -/
theorem C1_missing_param_not_validated :
    (∀ (w : World) (a : Args), w.hasToken = true → a.owner = none →
      handleCallTool w "create_issue" a = ([invalidOwnerEnvelope], [])) ∧
    (∀ (w : World) (a : Args), w.hasToken = true → a.body = none →
      (handleCallTool w "add_issue_comment" a).2 ≠ [] ∧
      ∀ k, (topPayload (handleCallTool w "add_issue_comment" a)).getField "error" = some k →
        k = JVal.jstr "GitHub API Error") := by
  constructor
  · intro w a hT howner
    have hdisp : dispatchTool w "create_issue" a = op_createIssue w a := rfl
    rw [handleCallTool_token w "create_issue" a hT, hdisp]
    unfold op_createIssue
    rw [howner]
    rfl
  · intro w a hT _hbody
    have hdisp : dispatchTool w "add_issue_comment" a = op_addIssueComment w a := rfl
    rw [handleCallTool_token w "add_issue_comment" a hT, hdisp]
    unfold op_addIssueComment ghTry
    dsimp only
    cases hr : w.get_repo (fullName a.owner a.repo) with
    | error e =>
        refine ⟨by simp [finishTop], ?_⟩
        intro k hk
        have hk2 : some (JVal.jstr "GitHub API Error") = some k := hk
        exact (Option.some.inj hk2).symm
    | ok repo =>
        dsimp only
        cases hi : w.get_issue (fullName a.owner a.repo) a.issue_number with
        | error e =>
            refine ⟨by simp [finishTop], ?_⟩
            intro k hk
            have hk2 : some (JVal.jstr "GitHub API Error") = some k := hk
            exact (Option.some.inj hk2).symm
        | ok issue =>
            dsimp only
            cases hc : w.create_comment (fullName a.owner a.repo) a.issue_number a.body with
            | error e =>
                refine ⟨by simp [finishTop], ?_⟩
                intro k hk
                have hk2 : some (JVal.jstr "GitHub API Error") = some k := hk
                exact (Option.some.inj hk2).symm
            | ok c =>
                refine ⟨by simp [finishTop], ?_⟩
                intro k hk
                exact Option.noConfusion (show (none : Option JVal) = some k from hk)

/-- Witness for the amended C1 at a concrete world and input: create_issue
called without an owner performs zero adapter calls, while
add_issue_comment without its required body still performs adapter
calls. -/
theorem C1_missing_param_not_validated_witness :
    wBase.hasToken = true ∧
    handleCallTool wBase "create_issue" { repo := some "hello", title := some "t" } =
      ([invalidOwnerEnvelope], []) ∧
    (handleCallTool wBase "add_issue_comment" aC1).2 ≠ [] :=
  ⟨rfl,
   C1_missing_param_not_validated.1 wBase { repo := some "hello", title := some "t" } rfl rfl,
   (C1_missing_param_not_validated.2 wBase aC1 rfl rfl).1⟩

/-- C6: file-content retrieval is characterised by exactly three cases:
a first-attempt success answers after one content call; a first-attempt
failure triggers exactly one fallback against master (two content
calls); and the normalized error envelope appears only when both
attempts fail. -/
theorem C6_file_contents_master_fallback (w : World) (a : Args) (repo : Repo)
    (hT : w.hasToken = true)
    (hrepo : w.get_repo (fullName a.owner a.repo) = Except.ok repo) :
    (∀ c, w.get_contents (fullName a.owner a.repo) a.path (a.branch.getD "main") = Except.ok c →
      handleCallTool w "get_file_contents" a =
        ([JVal.jstr c],
         [RemoteCall.getRepo (fullName a.owner a.repo),
          RemoteCall.getContents (fullName a.owner a.repo) a.path (a.branch.getD "main")])) ∧
    (∀ e c, w.get_contents (fullName a.owner a.repo) a.path (a.branch.getD "main") = Except.error e →
      w.get_contents (fullName a.owner a.repo) a.path "master" = Except.ok c →
      handleCallTool w "get_file_contents" a =
        ([JVal.jstr c],
         [RemoteCall.getRepo (fullName a.owner a.repo),
          RemoteCall.getContents (fullName a.owner a.repo) a.path (a.branch.getD "main"),
          RemoteCall.getContents (fullName a.owner a.repo) a.path "master"])) ∧
    (∀ e e2, w.get_contents (fullName a.owner a.repo) a.path (a.branch.getD "main") = Except.error e →
      w.get_contents (fullName a.owner a.repo) a.path "master" = Except.error e2 →
      handleCallTool w "get_file_contents" a =
        ([githubApiErrorEnvelope e2],
         [RemoteCall.getRepo (fullName a.owner a.repo),
          RemoteCall.getContents (fullName a.owner a.repo) a.path (a.branch.getD "main"),
          RemoteCall.getContents (fullName a.owner a.repo) a.path "master"])) := by
  have hdisp : dispatchTool w "get_file_contents" a = op_getFileContents w a := rfl
  refine ⟨?_, ?_, ?_⟩
  · intro c h1
    rw [handleCallTool_token w "get_file_contents" a hT, hdisp]
    unfold op_getFileContents ghTry
    dsimp only
    rw [hrepo]
    dsimp only
    rw [h1]
    rfl
  · intro e c h1 h2
    rw [handleCallTool_token w "get_file_contents" a hT, hdisp]
    unfold op_getFileContents ghTry
    dsimp only
    rw [hrepo]
    dsimp only
    rw [h1, h2]
    rfl
  · intro e e2 h1 h2
    rw [handleCallTool_token w "get_file_contents" a hT, hdisp]
    unfold op_getFileContents ghTry
    dsimp only
    rw [hrepo]
    dsimp only
    rw [h1, h2]
    rfl

/-- Witness for C6 at a concrete world whose main lookup fails and whose
master lookup succeeds: exactly the two content calls occur. -/
theorem C6_file_contents_master_fallback_witness :
    wC6.hasToken = true ∧
    wC6.get_contents "octo/hello" (some "README.md") "main" = Except.error ghe404 ∧
    handleCallTool wC6 "get_file_contents" aC6 =
      ([JVal.jstr "master text"],
       [RemoteCall.getRepo "octo/hello",
        RemoteCall.getContents "octo/hello" (some "README.md") "main",
        RemoteCall.getContents "octo/hello" (some "README.md") "master"]) :=
  ⟨rfl, rfl,
   (C6_file_contents_master_fallback wC6 aC6 repoA rfl rfl).2.1 ghe404 "master text" rfl rfl⟩

/-- C7 (counterexample): the delete-default-branch refusal is an error
envelope that carries no suggestions list at all, refuting the claim
that every error envelope has at least one suggestion. -/
theorem C7_counterexample :
    (topPayload (handleCallTool wBase "delete_branch" aC4)).getField "error" =
      some (JVal.jstr "Cannot delete default branch") ∧
    (topPayload (handleCallTool wBase "delete_branch" aC4)).getField "suggestions" = none :=
  ⟨rfl, rfl⟩

/-- C7 (amended): configuration-error envelopes always carry three
concrete suggestions, but not every error envelope carries any: the
delete-default-branch refusal has no suggestions field. -/
theorem C7_amended_suggestions :
    (∀ (w : World) (name : String) (a : Args), w.hasToken = false →
      (topPayload (handleCallTool w name a)).getField "suggestions" =
        some (JVal.jarr [JVal.jstr "Set GITHUB_TOKEN in your .env file",
          JVal.jstr "Get a token from: https://github.com/settings/tokens",
          JVal.jstr "Ensure the token has the \x27repo\x27 or \x27public_repo\x27 scope"])) ∧
    (∀ (w : World) (a : Args) (repo : Repo), w.hasToken = true →
      w.get_repo (fullName a.owner a.repo) = Except.ok repo →
      a.branch_name = some repo.default_branch →
      (topPayload (handleCallTool w "delete_branch" a)).getField "suggestions" = none) := by
  constructor
  · intro w name a hT
    rw [handleCallTool_notoken w name a hT]
    rfl
  · intro w a repo hT hrepo hdef
    have hdisp : dispatchTool w "delete_branch" a = op_deleteBranch w a := rfl
    rw [handleCallTool_token w "delete_branch" a hT, hdisp]
    unfold op_deleteBranch ghTry
    dsimp only
    rw [hrepo]
    dsimp only
    rw [hdef]
    simp only [beq_self_eq_true, if_true]
    rfl

/-- Witness for the amended C7 at concrete inputs. -/
theorem C7_amended_suggestions_witness :
    ({ wBase with hasToken := false } : World).hasToken = false ∧
    (topPayload (handleCallTool { wBase with hasToken := false } "list_issues" aC5)).getField "suggestions" =
      some (JVal.jarr [JVal.jstr "Set GITHUB_TOKEN in your .env file",
        JVal.jstr "Get a token from: https://github.com/settings/tokens",
        JVal.jstr "Ensure the token has the \x27repo\x27 or \x27public_repo\x27 scope"]) ∧
    (topPayload (handleCallTool wBase "delete_branch" aC4)).getField "suggestions" = none :=
  ⟨rfl,
   C7_amended_suggestions.1 { wBase with hasToken := false } "list_issues" aC5 rfl,
   C7_amended_suggestions.2 wBase aC4 repoA rfl rfl rfl⟩

/-- C8 (code evaluated at the failing input): an unknown operation name
raises the unknown-tool ValueError, which the top-level ValueError
handler — written for the missing-token case — classifies as a
Configuration Error envelope (with token suggestions), not as a distinct
generic error kind. -/
theorem C8_unknown_tool_config_error :
    handleCallTool wBase "definitely_not_a_tool" {} =
      ([configurationErrorEnvelope "Unknown tool: definitely_not_a_tool"], []) ∧
    (topPayload (handleCallTool wBase "definitely_not_a_tool" {})).getField "error" =
      some (JVal.jstr "Configuration Error") :=
  ⟨rfl, rfl⟩

/-- A python slice with a nonnegative bound returns at most that many
elements. -/
theorem length_pySliceTo_le (xs : List α) (n : Int) (hn : 0 ≤ n) :
    (pySliceTo xs n).length ≤ n.toNat := by
  unfold pySliceTo
  rw [if_pos hn]
  exact List.length_take_le n.toNat xs

/-- C5: list_issues returns exactly the remote collection sliced to the
clamped limit FIRST and only then filtered of pull requests; the count
is bounded by any nonnegative requested limit; and on a concrete mixed
collection with limit 2 only one issue comes back although two matching
issues exist upstream. -/
theorem C5_list_issues_pr_filter (w : World) (a : Args) (repo : Repo) (issues : List Issue)
    (hT : w.hasToken = true)
    (hrepo : w.get_repo (fullName a.owner a.repo) = Except.ok repo)
    (hiss : w.get_issues (fullName a.owner a.repo) (a.state.getD "open") = Except.ok issues) :
    handleCallTool w "list_issues" a =
      ([JVal.jarr (((pySliceTo issues (min (a.limit.getD 10) 100)).filter
          (fun i => !i.pull_request)).map issueRow)],
       [RemoteCall.getRepo (fullName a.owner a.repo),
        RemoteCall.getIssues (fullName a.owner a.repo) (a.state.getD "open")]) ∧
    (∀ v : Int, a.limit = some v → 0 ≤ v →
      (((pySliceTo issues (min (a.limit.getD 10) 100)).filter
          (fun i => !i.pull_request)).map issueRow).length ≤ v.toNat) ∧
    (handleCallTool wC5 "list_issues" aC5).1 = [JVal.jarr [issueRow issueA]] ∧
    aC5.limit = some 2 ∧
    (([issuePR, issueA, issueB].filter (fun i => !i.pull_request)).length = 2) := by
  have hdisp : dispatchTool w "list_issues" a = op_listIssues w a := rfl
  refine ⟨?_, ?_, rfl, rfl, rfl⟩
  · rw [handleCallTool_token w "list_issues" a hT, hdisp]
    unfold op_listIssues ghTry
    dsimp only
    rw [hrepo]
    dsimp only
    rw [hiss]
    rfl
  · intro v hv h0
    rw [hv]
    simp only [Option.getD_some]
    calc (((pySliceTo issues (min v 100)).filter (fun i => !i.pull_request)).map issueRow).length
        = ((pySliceTo issues (min v 100)).filter (fun i => !i.pull_request)).length :=
          List.length_map _ _
      _ ≤ (pySliceTo issues (min v 100)).length := List.length_filter_le _ _
      _ ≤ (min v 100).toNat := length_pySliceTo_le _ _ (le_min h0 (by norm_num))
      _ ≤ v.toNat := Int.toNat_le_toNat (min_le_left _ _)

/-- Witness for C5 at the concrete mixed collection. -/
theorem C5_list_issues_pr_filter_witness :
    wC5.hasToken = true ∧
    (handleCallTool wC5 "list_issues" aC5).1 = [JVal.jarr [issueRow issueA]] :=
  ⟨rfl, (C5_list_issues_pr_filter wC5 aC5 repoA [issuePR, issueA, issueB] rfl rfl rfl).2.2.1⟩

/-- The aggregation loop never looks past the first 500 commits. -/
theorem commitStatsLoop_take (xs : List Commit) :
    ∀ (t : Nat) (am dm : List (String × Nat)), t < 500 →
      commitStatsLoop xs t am dm = commitStatsLoop (List.take (500 - t) xs) t am dm := by
  induction xs with
  | nil => intro t am dm ht; simp [List.take_nil]
  | cons c rest ih =>
      intro t am dm ht
      obtain ⟨k, hk⟩ : ∃ k, 500 - t = k + 1 := ⟨500 - t - 1, by omega⟩
      have hk2 : k = 500 - (t + 1) := by omega
      rw [hk, List.take_succ_cons]
      simp only [commitStatsLoop]
      split
      · rfl
      · subst hk2
        exact ih (t + 1) (bumpKey am (commitAuthorName c)) (bumpDay dm c) (by omega)

/-- The total counted by the aggregation loop is the window size capped
at 500 (relative to the running counter). -/
theorem commitStatsLoop_total (xs : List Commit) :
    ∀ (t : Nat) (am dm : List (String × Nat)), t < 500 →
      (commitStatsLoop xs t am dm).1 = t + min xs.length (500 - t) := by
  induction xs with
  | nil => intro t am dm ht; simp [commitStatsLoop]
  | cons c rest ih =>
      intro t am dm ht
      by_cases hc : 500 ≤ t + 1
      · simp only [commitStatsLoop, if_pos hc]
        simp only [List.length_cons]
        omega
      · have ht2 : t + 1 < 500 := by omega
        simp only [commitStatsLoop, if_neg hc]
        rw [ih (t + 1) _ _ ht2]
        simp only [List.length_cons]
        omega

/-- C9: get_commit_stats counts at most 500 commits — the reported total
is the upstream count capped at 500, the whole aggregation only depends
on the first 500 commits of the window, and the response is unchanged if
the upstream collection is truncated to 500 entries. -/
theorem C9_commit_stats_cap (w : World) (a : Args) (repo : Repo) (commits : List Commit)
    (hT : w.hasToken = true)
    (hrepo : w.get_repo (fullName a.owner a.repo) = Except.ok repo)
    (hcs : w.get_commits_since (fullName a.owner a.repo)
      (w.nowMinusDays (a.days.getD 30)) = Except.ok commits) :
    (commitStatsLoop commits 0 [] []).1 = min commits.length 500 ∧
    (commitStatsLoop commits 0 [] []).1 ≤ 500 ∧
    commitStatsLoop commits 0 [] [] = commitStatsLoop (List.take 500 commits) 0 [] [] ∧
    handleCallTool w "get_commit_stats" a =
      handleCallTool (truncateCommitWindow w) "get_commit_stats" a := by
  have htot := commitStatsLoop_total commits 0 [] [] (by omega)
  have hloop : commitStatsLoop commits 0 [] [] = commitStatsLoop (List.take 500 commits) 0 [] [] := by
    have h := commitStatsLoop_take commits 0 [] [] (by omega)
    simpa using h
  refine ⟨by simpa using htot, ?_, hloop, ?_⟩
  · rw [show (commitStatsLoop commits 0 [] []).1 = min commits.length 500 from by simpa using htot]
    exact min_le_right _ _
  · rw [handleCallTool_token w "get_commit_stats" a hT,
        handleCallTool_token (truncateCommitWindow w) "get_commit_stats" a hT]
    show finishTop (op_getCommitStats w a) = finishTop (op_getCommitStats (truncateCommitWindow w) a)
    unfold op_getCommitStats ghTry truncateCommitWindow
    dsimp only
    rw [hrepo]
    dsimp only
    rw [hcs]
    dsimp only [Except.map]
    rw [hloop]

/-- Witness for C9 at a world with 501 commits in the window: the
reported total is 500, not 501. -/
theorem C9_commit_stats_cap_witness :
    wC9.hasToken = true ∧
    (commitStatsLoop (List.replicate 501 commitA) 0 [] []).1 =
      min (List.replicate 501 commitA).length 500 :=
  ⟨rfl, (C9_commit_stats_cap wC9 aC9 repoA (List.replicate 501 commitA) rfl rfl rfl).1⟩

/-- C10: the comparison operations truncate the displayed commit list to
20 entries, the displayed file list to 50 (compare_commits) or 30
(compare_branches) entries, while files_changed always reports the full
changed-file count — which therefore can strictly exceed the number of
file rows returned, as the concrete 60-file comparison shows. -/
theorem C10_compare_truncation (w : World) (a : Args) (repo : Repo) (cmp : Comparison)
    (hT : w.hasToken = true)
    (hrepo : w.get_repo (fullName a.owner a.repo) = Except.ok repo)
    (hcmp : w.compare (fullName a.owner a.repo) a.base a.head = Except.ok cmp) :
    (fieldItems "commits" (topPayload (handleCallTool w "compare_commits" a)) =
       some ((cmp.commits.take 20).map compareCommitRow) ∧
     fieldItems "files" (topPayload (handleCallTool w "compare_commits" a)) =
       some ((cmp.files.take 50).map compareFileRow) ∧
     (topPayload (handleCallTool w "compare_commits" a)).getField "files_changed" =
       some (JVal.jint cmp.files.length) ∧
     ((cmp.commits.take 20).map compareCommitRow).length ≤ 20 ∧
     ((cmp.files.take 50).map compareFileRow).length ≤ 50) ∧
    (fieldItems "commits" (topPayload (handleCallTool w "compare_branches" a)) =
       some ((cmp.commits.take 20).map compareCommitRow) ∧
     fieldItems "files" (topPayload (handleCallTool w "compare_branches" a)) =
       some ((cmp.files.take 30).map compareFileRow) ∧
     (topPayload (handleCallTool w "compare_branches" a)).getField "files_changed" =
       some (JVal.jint cmp.files.length) ∧
     ((cmp.files.take 30).map compareFileRow).length ≤ 30) ∧
    ((topPayload (handleCallTool wC10 "compare_commits" aC10)).getField "files_changed" =
       some (JVal.jint 60) ∧
     fieldItems "files" (topPayload (handleCallTool wC10 "compare_commits" aC10)) =
       some ((comparisonBig.files.take 50).map compareFileRow) ∧
     ((comparisonBig.files.take 50).map compareFileRow).length = 50) := by
  have hdisp1 : dispatchTool w "compare_commits" a = op_compareCommits w a := rfl
  have hdisp2 : dispatchTool w "compare_branches" a = op_compareBranches w a := rfl
  refine ⟨⟨?_, ?_, ?_, ?_, ?_⟩, ⟨?_, ?_, ?_, ?_⟩, rfl, rfl, rfl⟩
  · rw [handleCallTool_token w "compare_commits" a hT, hdisp1]
    unfold op_compareCommits ghTry
    dsimp only
    rw [hrepo]
    dsimp only
    rw [hcmp]
    rfl
  · rw [handleCallTool_token w "compare_commits" a hT, hdisp1]
    unfold op_compareCommits ghTry
    dsimp only
    rw [hrepo]
    dsimp only
    rw [hcmp]
    rfl
  · rw [handleCallTool_token w "compare_commits" a hT, hdisp1]
    unfold op_compareCommits ghTry
    dsimp only
    rw [hrepo]
    dsimp only
    rw [hcmp]
    rfl
  · rw [List.length_map]
    exact List.length_take_le 20 cmp.commits
  · rw [List.length_map]
    exact List.length_take_le 50 cmp.files
  · rw [handleCallTool_token w "compare_branches" a hT, hdisp2]
    unfold op_compareBranches ghTry
    dsimp only
    rw [hrepo]
    dsimp only
    rw [hcmp]
    rfl
  · rw [handleCallTool_token w "compare_branches" a hT, hdisp2]
    unfold op_compareBranches ghTry
    dsimp only
    rw [hrepo]
    dsimp only
    rw [hcmp]
    rfl
  · rw [handleCallTool_token w "compare_branches" a hT, hdisp2]
    unfold op_compareBranches ghTry
    dsimp only
    rw [hrepo]
    dsimp only
    rw [hcmp]
    rfl
  · rw [List.length_map]
    exact List.length_take_le 30 cmp.files

/-- Witness for C10 at the concrete 60-file comparison. -/
theorem C10_compare_truncation_witness :
    wC10.hasToken = true ∧
    (topPayload (handleCallTool wC10 "compare_commits" aC10)).getField "files_changed" =
      some (JVal.jint 60) :=
  ⟨rfl, (C10_compare_truncation wC10 aC10 repoA comparisonBig rfl rfl rfl).2.2.1⟩

/-- C2 (counterexample): supplying limit=0 to search_repositories with a
nonempty upstream result yields an empty success array — no
ValidationError is raised and the effective limit is 0, not clamped up
to 1, refuting the claimed inclusive [1, 100] clamp. -/
theorem C2_counterexample :
    (handleCallTool wBase "search_repositories" aLimit0).1 = [JVal.jarr []] ∧
    (topPayload (handleCallTool wBase "search_repositories" aLimit0)).getField "error" = none ∧
    wBase.search_repositories aLimit0.query (aLimit0.sort.getD "stars") = Except.ok [repoA] :=
  ⟨rfl, rfl, rfl⟩

/-- C2 (amended): every limit-accepting operation caps the supplied
limit above at 100 via min(limit, 100) — with limit=500 each returns at
most 100 rows — but degenerate limits are not rejected and not clamped
below: limit=0 produces an empty success result. -/
theorem C2_amended_limit_cap :
    (∀ (w : World) (a : Args) (xs : List JVal), a.limit = some 500 →
      arrItems (topPayload (handleCallTool w "search_repositories" a)) = some xs →
      xs.length ≤ 100) ∧
    (∀ (w : World) (a : Args) (xs : List JVal), a.limit = some 500 →
      arrItems (topPayload (handleCallTool w "list_issues" a)) = some xs →
      xs.length ≤ 100) ∧
    (∀ (w : World) (a : Args) (xs : List JVal), a.limit = some 500 →
      arrItems (topPayload (handleCallTool w "list_pull_requests" a)) = some xs →
      xs.length ≤ 100) ∧
    (∀ (w : World) (a : Args) (xs : List JVal), a.limit = some 500 →
      fieldItems "contributors" (topPayload (handleCallTool w "get_contributor_stats" a)) = some xs →
      xs.length ≤ 100) ∧
    (∀ (w : World) (a : Args) (xs : List JVal), a.limit = some 500 →
      fieldItems "commits" (topPayload (handleCallTool w "list_commits" a)) = some xs →
      xs.length ≤ 100) ∧
    (∀ (w : World) (a : Args) (xs : List JVal), a.limit = some 500 →
      fieldItems "commits" (topPayload (handleCallTool w "search_commits" a)) = some xs →
      xs.length ≤ 100) ∧
    (∀ (w : World) (a : Args) (repos : List Repo), w.hasToken = true → a.limit = some 0 →
      w.search_repositories a.query (a.sort.getD "stars") = Except.ok repos →
      (handleCallTool w "search_repositories" a).1 = [JVal.jarr []]) := by
  refine ⟨?_, ?_, ?_, ?_, ?_, ?_, ?_⟩
  · intro w a xs hlim hx
    cases hT : w.hasToken
    · rw [handleCallTool_notoken w _ a hT] at hx
      exact Option.noConfusion (show (none : Option (List JVal)) = some xs from hx)
    · rw [handleCallTool_token w _ a hT] at hx
      have hx2 : arrItems (topPayload (finishTop (op_searchRepositories w a))) = some xs := hx
      unfold op_searchRepositories ghTry at hx2
      dsimp only at hx2
      cases hs : w.search_repositories a.query (a.sort.getD "stars") with
      | error e =>
          rw [hs] at hx2
          exact Option.noConfusion (show (none : Option (List JVal)) = some xs from hx2)
      | ok repos =>
          rw [hs] at hx2
          have hx3 : some ((pySliceTo repos (min (a.limit.getD 10) 100)).map searchRepoRow) =
              some xs := hx2
          obtain rfl := Option.some.inj hx3
          rw [hlim]
          simp only [Option.getD_some]
          rw [show min (500 : Int) 100 = 100 from by decide, List.length_map]
          simpa using length_pySliceTo_le repos (100 : Int) (by decide)
  · intro w a xs hlim hx
    cases hT : w.hasToken
    · rw [handleCallTool_notoken w _ a hT] at hx
      exact Option.noConfusion (show (none : Option (List JVal)) = some xs from hx)
    · rw [handleCallTool_token w _ a hT] at hx
      have hx2 : arrItems (topPayload (finishTop (op_listIssues w a))) = some xs := hx
      unfold op_listIssues ghTry at hx2
      dsimp only at hx2
      cases hr : w.get_repo (fullName a.owner a.repo) with
      | error e =>
          rw [hr] at hx2
          exact Option.noConfusion (show (none : Option (List JVal)) = some xs from hx2)
      | ok repo =>
          rw [hr] at hx2
          dsimp only at hx2
          cases hi : w.get_issues (fullName a.owner a.repo) (a.state.getD "open") with
          | error e =>
              rw [hi] at hx2
              exact Option.noConfusion (show (none : Option (List JVal)) = some xs from hx2)
          | ok issues =>
              rw [hi] at hx2
              have hx3 : some (((pySliceTo issues (min (a.limit.getD 10) 100)).filter
                  (fun i => !i.pull_request)).map issueRow) = some xs := hx2
              obtain rfl := Option.some.inj hx3
              rw [hlim]
              simp only [Option.getD_some]
              rw [show min (500 : Int) 100 = 100 from by decide, List.length_map]
              exact le_trans (List.length_filter_le _ _)
                (by simpa using length_pySliceTo_le issues (100 : Int) (by decide))
  · intro w a xs hlim hx
    cases hT : w.hasToken
    · rw [handleCallTool_notoken w _ a hT] at hx
      exact Option.noConfusion (show (none : Option (List JVal)) = some xs from hx)
    · rw [handleCallTool_token w _ a hT] at hx
      have hx2 : arrItems (topPayload (finishTop (op_listPullRequests w a))) = some xs := hx
      unfold op_listPullRequests ghTry at hx2
      dsimp only at hx2
      cases hr : w.get_repo (fullName a.owner a.repo) with
      | error e =>
          rw [hr] at hx2
          exact Option.noConfusion (show (none : Option (List JVal)) = some xs from hx2)
      | ok repo =>
          rw [hr] at hx2
          dsimp only at hx2
          cases hp : w.get_pulls (fullName a.owner a.repo) (a.state.getD "open") with
          | error e =>
              rw [hp] at hx2
              exact Option.noConfusion (show (none : Option (List JVal)) = some xs from hx2)
          | ok prs =>
              rw [hp] at hx2
              have hx3 : some ((pySliceTo prs (min (a.limit.getD 10) 100)).map pullRow) =
                  some xs := hx2
              obtain rfl := Option.some.inj hx3
              rw [hlim]
              simp only [Option.getD_some]
              rw [show min (500 : Int) 100 = 100 from by decide, List.length_map]
              simpa using length_pySliceTo_le prs (100 : Int) (by decide)
  · intro w a xs hlim hx
    cases hT : w.hasToken
    · rw [handleCallTool_notoken w _ a hT] at hx
      exact Option.noConfusion (show (none : Option (List JVal)) = some xs from hx)
    · rw [handleCallTool_token w _ a hT] at hx
      have hx2 : fieldItems "contributors"
          (topPayload (finishTop (op_getContributorStats w a))) = some xs := hx
      unfold op_getContributorStats ghTry at hx2
      dsimp only at hx2
      cases hr : w.get_repo (fullName a.owner a.repo) with
      | error e =>
          rw [hr] at hx2
          exact Option.noConfusion (show (none : Option (List JVal)) = some xs from hx2)
      | ok repo =>
          rw [hr] at hx2
          dsimp only at hx2
          cases hst : w.get_stats_contributors (fullName a.owner a.repo) with
          | error e =>
              rw [hst] at hx2
              exact Option.noConfusion (show (none : Option (List JVal)) = some xs from hx2)
          | ok stats =>
              rw [hst] at hx2
              cases stats with
              | none =>
                  exact Option.noConfusion (show (none : Option (List JVal)) = some xs from hx2)
              | some stats =>
                  have hx3 : some ((pySliceTo
                      (sortDescBy (fun y x => decide (x.total ≤ y.total)) stats)
                      (min (a.limit.getD 10) 100)).map contributorRow) = some xs := hx2
                  obtain rfl := Option.some.inj hx3
                  rw [hlim]
                  simp only [Option.getD_some]
                  rw [show min (500 : Int) 100 = 100 from by decide, List.length_map]
                  simpa using length_pySliceTo_le
                    (sortDescBy (fun y x => decide (x.total ≤ y.total)) stats) (100 : Int) (by decide)
  · intro w a xs hlim hx
    cases hT : w.hasToken
    · rw [handleCallTool_notoken w _ a hT] at hx
      exact Option.noConfusion (show (none : Option (List JVal)) = some xs from hx)
    · rw [handleCallTool_token w _ a hT] at hx
      have hx2 : fieldItems "commits"
          (topPayload (finishTop (op_listCommits w a))) = some xs := hx
      unfold op_listCommits ghTry at hx2
      dsimp only at hx2
      cases hr : w.get_repo (fullName a.owner a.repo) with
      | error e =>
          rw [hr] at hx2
          exact Option.noConfusion (show (none : Option (List JVal)) = some xs from hx2)
      | ok repo =>
          rw [hr] at hx2
          dsimp only at hx2
          cases hc : w.get_commits (fullName a.owner a.repo)
              (if pyTruthyStrOpt a.branch = true then some (pyStr a.branch) else none) with
          | error e =>
              rw [hc] at hx2
              exact Option.noConfusion (show (none : Option (List JVal)) = some xs from hx2)
          | ok commits =>
              rw [hc] at hx2
              have hx3 : some ((pySliceTo commits (min (a.limit.getD 10) 100)).map commitListRow) =
                  some xs := hx2
              obtain rfl := Option.some.inj hx3
              rw [hlim]
              simp only [Option.getD_some]
              rw [show min (500 : Int) 100 = 100 from by decide, List.length_map]
              simpa using length_pySliceTo_le commits (100 : Int) (by decide)
  · intro w a xs hlim hx
    cases hT : w.hasToken
    · rw [handleCallTool_notoken w _ a hT] at hx
      exact Option.noConfusion (show (none : Option (List JVal)) = some xs from hx)
    · rw [handleCallTool_token w _ a hT] at hx
      have hx2 : fieldItems "commits"
          (topPayload (finishTop (op_searchCommits w a))) = some xs := hx
      unfold op_searchCommits ghTry at hx2
      dsimp only at hx2
      cases hr : w.get_repo (fullName a.owner a.repo) with
      | error e =>
          rw [hr] at hx2
          exact Option.noConfusion (show (none : Option (List JVal)) = some xs from hx2)
      | ok repo =>
          rw [hr] at hx2
          dsimp only at hx2
          cases hp1 : parseOptIso w a.since with
          | error m =>
              rw [hp1] at hx2
              exact Option.noConfusion (show (none : Option (List JVal)) = some xs from hx2)
          | ok sinceP =>
              rw [hp1] at hx2
              dsimp only at hx2
              cases hp2 : parseOptIso w a.until_arg with
              | error m =>
                  rw [hp2] at hx2
                  exact Option.noConfusion (show (none : Option (List JVal)) = some xs from hx2)
              | ok untilP =>
                  rw [hp2] at hx2
                  dsimp only at hx2
                  cases hc : w.get_commits_filtered (fullName a.owner a.repo)
                      (truthyOrNone a.author) sinceP untilP (truthyOrNone a.path) with
                  | error e =>
                      rw [hc] at hx2
                      exact Option.noConfusion (show (none : Option (List JVal)) = some xs from hx2)
                  | ok commits =>
                      rw [hc] at hx2
                      have hx3 : some ((pySliceTo commits
                          (min (a.limit.getD 10) 100)).map searchCommitRow) = some xs := hx2
                      obtain rfl := Option.some.inj hx3
                      rw [hlim]
                      simp only [Option.getD_some]
                      rw [show min (500 : Int) 100 = 100 from by decide, List.length_map]
                      simpa using length_pySliceTo_le commits (100 : Int) (by decide)
  · intro w a repos hT hlim hs
    rw [handleCallTool_token w _ a hT]
    show (finishTop (op_searchRepositories w a)).1 = [JVal.jarr []]
    unfold op_searchRepositories ghTry
    dsimp only
    rw [hs, hlim]
    rfl

/-- Witness for the amended C2: at limit=500 over a one-repo upstream
the returned array has at most 100 rows, and at limit=0 the result is
the empty success array. -/
theorem C2_amended_limit_cap_witness :
    aLimit500.limit = some 500 ∧
    arrItems (topPayload (handleCallTool wBase "search_repositories" aLimit500)) =
      some ((pySliceTo [repoA] (100 : Int)).map searchRepoRow) ∧
    ((pySliceTo [repoA] (100 : Int)).map searchRepoRow).length ≤ 100 ∧
    (handleCallTool wBase "search_repositories" aLimit0).1 = [JVal.jarr []] :=
  ⟨rfl, rfl,
   C2_amended_limit_cap.1 wBase aLimit500 ((pySliceTo [repoA] (100 : Int)).map searchRepoRow) rfl rfl,
   C2_amended_limit_cap.2.2.2.2.2.2 wBase aLimit0 [repoA] rfl rfl rfl⟩

end GithubMcp
